import Mathlib

/-!
Shallow embedding of the gesture-to-intent state machine and the
particle-motion engine of the repository: the GestureClassifier
(src/src/mediapipe/GestureClassifier.ts), the RapidPulseBuffer temporal
detector (src/unnamed/part_001), the ParticleSystem engine
(src/unnamed/part_006) and the target-text guard of the
useParticleSystem hook (src/src/hooks/useParticleSystem.ts).

Real arithmetic of the source (JavaScript doubles) is modelled over the
exact rationals.  Calls to Math.random, Math.sin, Math.cos, Math.acos,
Math.sqrt, Math.PI and Date.now are modelled by an explicit oracle
record passed to every operation; each library call site of the source
draws from the oracle at the point where the source calls it, with the
random stream consumed through an explicit index, so a concrete oracle
instantiates one concrete execution.  Rendering state (geometry
buffers, materials, textures) is outside the modelled core, as in the
specification's scope.
-/

namespace Spec2Proof

/-- Exact-rational stand-in for a THREE.Vector3 value (also used for the
TextPoint and NormalizedLandmark record types, which are plain x, y, z
triples in the source). -/
structure Vec3 where
  x : ℚ
  y : ℚ
  z : ℚ
deriving DecidableEq, Repr

instance : Add Vec3 := ⟨fun a b => ⟨a.x + b.x, a.y + b.y, a.z + b.z⟩⟩

instance : Sub Vec3 := ⟨fun a b => ⟨a.x - b.x, a.y - b.y, a.z - b.z⟩⟩

instance : SMul ℚ Vec3 := ⟨fun c v => ⟨c * v.x, c * v.y, c * v.z⟩⟩

instance : Inhabited Vec3 := ⟨⟨0, 0, 0⟩⟩

/-- Squared euclidean norm of a vector. -/
def normSq (v : Vec3) : ℚ := v.x * v.x + v.y * v.y + v.z * v.z

/-- Cross product, as in THREE.Vector3.crossVectors. -/
def cross (a b : Vec3) : Vec3 :=
  ⟨a.y * b.z - a.z * b.y, a.z * b.x - a.x * b.z, a.x * b.y - a.y * b.x⟩

/-- Oracle for the JavaScript library functions used by the source:
a stream of Math.random results consumed by index, the trigonometric
and square-root functions, the Math.PI constant and the current
Date.now-derived time.  The engine code is a deterministic function of
the oracle. -/
structure MathOracle where
  rand : ℕ → ℚ
  sin : ℚ → ℚ
  cos : ℚ → ℚ
  acos : ℚ → ℚ
  sqrt : ℚ → ℚ
  pi : ℚ
  now : ℚ

/-- Length of a vector as computed by THREE.Vector3.length, via the
oracle's square root. -/
def vlength (o : MathOracle) (v : Vec3) : ℚ := o.sqrt (normSq v)

/-- Normalization as in THREE.Vector3.normalize, which divides by
(length or 1) so the zero-length vector is returned unchanged. -/
def vnormalize (o : MathOracle) (v : Vec3) : Vec3 :=
  let l := vlength o v
  if l = 0 then v else (1 / l) • v

/-- Hypothesis that the oracle's random stream lies in the interval
of Math.random, zero inclusive to one exclusive. -/
def randInRange (o : MathOracle) : Prop := ∀ n, 0 ≤ o.rand n ∧ o.rand n < 1

/-- Hypothesis that the oracle's square root decides the 0.1 threshold
comparison of interpolateToTarget the way a real square root does:
the computed length exceeds 0.1 exactly when the squared norm exceeds
0.01. -/
def sqrtThresholdFaithful (o : MathOracle) : Prop :=
  ∀ v : Vec3, ((1 : ℚ) / 10 < vlength o v ↔ (1 : ℚ) / 100 < normSq v)

/-! ### Constants (src/src/utils/constants.ts and ParticleSystem fields) -/

def PARTICLE_COUNT : ℕ := 3000

def CONFIDENCE_THRESHOLD : ℚ := 0.8

def PARTICLE_IDLE_RADIUS : ℚ := 80

def PARTICLE_DRIFT_SPEED : ℚ := 0.05

def PARTICLE_MORPH_SPEED : ℚ := 0.08

def PARTICLE_JITTER_AMOUNT : ℚ := 0.08

def RAPID_PULSE_WINDOW_MS : ℤ := 1500

def RAPID_PULSE_MIN_CHANGES : ℕ := 3

/-! ### Gesture data model (src/src/types/gestures.ts) -/

/-- Gesture categories detected by the system. -/
inductive GestureType where
  | OPEN_PALM
  | POINT
  | VICTORY
  | THREE_COUNT
  | FIST
  | UNKNOWN
deriving DecidableEq, Repr

/-- MediaPipe hand landmark indices (FingerLandmark in the source). -/
def WRIST : ℕ := 0

def THUMB_MCP : ℕ := 2

def THUMB_IP : ℕ := 3

def THUMB_TIP : ℕ := 4

def INDEX_PIP : ℕ := 6

def INDEX_TIP : ℕ := 8

def MIDDLE_PIP : ℕ := 10

def MIDDLE_TIP : ℕ := 12

def RING_PIP : ℕ := 14

def RING_TIP : ℕ := 16

def PINKY_PIP : ℕ := 18

def PINKY_TIP : ℕ := 20

/-! ### GestureClassifier (src/src/mediapipe/GestureClassifier.ts)

The classify method also stamps Date.now() on its result; the timestamp
is ambient and plays no role in classification, so the embedding
returns the category and confidence. -/

/-- Result of a classification: category plus fixed confidence. -/
structure GestureOutcome where
  type : GestureType
  confidence : ℚ
deriving DecidableEq, Repr

/-- Landmark lookup; indices are in range for the 21-point sets the
classifier accepts, so the default is never reached on those. -/
def getLandmark (landmarks : List Vec3) (i : ℕ) : Vec3 := landmarks.getD i ⟨0, 0, 0⟩

namespace GestureClassifier

/-- A non-thumb finger is extended when its tip y is numerically below
its pip y (image-space y grows downward). -/
def isFingerExtended (landmarks : List Vec3) (tipIndex pipIndex : ℕ) : Bool :=
  (getLandmark landmarks tipIndex).y < (getLandmark landmarks pipIndex).y

/-- Thumb extension uses horizontal distance from the wrist instead. -/
def isThumbExtended (landmarks : List Vec3) : Bool :=
  let tipDistance := |(getLandmark landmarks THUMB_TIP).x - (getLandmark landmarks WRIST).x|
  let mcpDistance := |(getLandmark landmarks THUMB_MCP).x - (getLandmark landmarks WRIST).x|
  mcpDistance * 1.3 < tipDistance

/-- Count of extended fingers: the four tip-above-pip tests plus the
thumb test. -/
def countExtendedFingers (landmarks : List Vec3) : ℕ :=
  (if isFingerExtended landmarks INDEX_TIP INDEX_PIP then 1 else 0) +
  (if isFingerExtended landmarks MIDDLE_TIP MIDDLE_PIP then 1 else 0) +
  (if isFingerExtended landmarks RING_TIP RING_PIP then 1 else 0) +
  (if isFingerExtended landmarks PINKY_TIP PINKY_PIP then 1 else 0) +
  (if isThumbExtended landmarks then 1 else 0)

/-- Shape check: only the index finger among the four non-thumb fingers. -/
def isOnlyIndexExtended (landmarks : List Vec3) : Bool :=
  isFingerExtended landmarks INDEX_TIP INDEX_PIP &&
  !isFingerExtended landmarks MIDDLE_TIP MIDDLE_PIP &&
  !isFingerExtended landmarks RING_TIP RING_PIP &&
  !isFingerExtended landmarks PINKY_TIP PINKY_PIP

/-- Shape check: index and middle, not ring or pinky. -/
def isIndexAndMiddleExtended (landmarks : List Vec3) : Bool :=
  isFingerExtended landmarks INDEX_TIP INDEX_PIP &&
  isFingerExtended landmarks MIDDLE_TIP MIDDLE_PIP &&
  !isFingerExtended landmarks RING_TIP RING_PIP &&
  !isFingerExtended landmarks PINKY_TIP PINKY_PIP

/-- Shape check: index, middle and ring, not pinky. -/
def isIndexMiddleRingExtended (landmarks : List Vec3) : Bool :=
  isFingerExtended landmarks INDEX_TIP INDEX_PIP &&
  isFingerExtended landmarks MIDDLE_TIP MIDDLE_PIP &&
  isFingerExtended landmarks RING_TIP RING_PIP &&
  !isFingerExtended landmarks PINKY_TIP PINKY_PIP

/-- Classification of a landmark set, as in GestureClassifier.classify.
Input that is not exactly 21 points yields UNKNOWN with confidence 0
(the null input of the source is subsumed by the length guard). -/
def classify (landmarks : List Vec3) : GestureOutcome :=
  if landmarks.length ≠ 21 then ⟨GestureType.UNKNOWN, 0⟩
  else
    let extendedFingers := countExtendedFingers landmarks
    if extendedFingers = 5 then ⟨GestureType.OPEN_PALM, 1⟩
    else if extendedFingers = 1 && isOnlyIndexExtended landmarks then ⟨GestureType.POINT, 0.9⟩
    else if extendedFingers = 2 && isIndexAndMiddleExtended landmarks then ⟨GestureType.VICTORY, 0.95⟩
    else if extendedFingers = 3 && isIndexMiddleRingExtended landmarks then ⟨GestureType.THREE_COUNT, 0.9⟩
    else if extendedFingers ≤ 1 && !isOnlyIndexExtended landmarks then ⟨GestureType.FIST, 0.95⟩
    else ⟨GestureType.UNKNOWN, 0.5⟩

end GestureClassifier

/-! ### RapidPulseBuffer (src/unnamed/part_001) -/

/-- A recorded state change between consecutive classified categories. -/
structure StateChangeEvent where
  fromType : GestureType
  toType : GestureType
  timestamp : ℤ
deriving DecidableEq, Repr

/-- Mutable state of the RapidPulseBuffer class: the pruned event
buffer and the last seen category. -/
structure RapidPulseBuffer where
  buffer : List StateChangeEvent
  lastGesture : Option GestureType
deriving DecidableEq, Repr

namespace RapidPulseBuffer

/-- Freshly constructed buffer. -/
def new : RapidPulseBuffer := ⟨[], none⟩

/-- Removes events older than the time window, as in cleanOldEvents:
events at or after currentTimestamp minus windowMs are kept. -/
def cleanOldEvents (windowMs : ℤ) (currentTimestamp : ℤ)
    (buf : List StateChangeEvent) : List StateChangeEvent :=
  buf.filter (fun e => currentTimestamp - windowMs ≤ e.timestamp)

/-- Adds a classified gesture (category, timestamp): records a change
event when the category differs from the last seen one, then prunes,
and always updates lastGesture. -/
def addGesture (windowMs : ℤ) (s : RapidPulseBuffer) (g : GestureType × ℤ) : RapidPulseBuffer :=
  let currentType := g.1
  let s1 :=
    match s.lastGesture with
    | some last =>
        if last ≠ currentType then
          { s with buffer :=
              cleanOldEvents windowMs g.2 (s.buffer ++ [(⟨last, currentType, g.2⟩ : StateChangeEvent)]) }
        else s
    | none => s
  { s1 with lastGesture := some currentType }

/-- A category is relevant to the pulse pattern when it is OPEN_PALM
or FIST. -/
def isRelevant (t : GestureType) : Bool :=
  t = GestureType.OPEN_PALM || t = GestureType.FIST

/-- Alternation counting loop of detectRapidPulse: walk the buffer,
considering only events with both endpoints relevant; count whenever
the destination differs from the last counted relevant destination. -/
def alternationCount (buf : List StateChangeEvent) : ℕ :=
  (buf.foldl
    (fun acc e =>
      if isRelevant e.fromType && isRelevant e.toType then
        match acc.2 with
        | none => (acc.1 + 1, some e.toType)
        | some l => if l ≠ e.toType then (acc.1 + 1, some e.toType) else acc
      else acc)
    ((0 : ℕ), (none : Option GestureType))).1

/-- Resets the buffer, as in reset. -/
def reset : RapidPulseBuffer := ⟨[], none⟩

/-- One-shot detection, as in detectRapidPulse: too few events is a
plain false; enough alternations fires, clears everything and returns
true; otherwise false with the state untouched.  The returned pair is
the boolean result and the post-call state. -/
def detectRapidPulse (minChanges : ℕ) (s : RapidPulseBuffer) : Bool × RapidPulseBuffer :=
  if s.buffer.length < minChanges then (false, s)
  else if minChanges ≤ alternationCount s.buffer then (true, reset)
  else (false, s)

/-- Feeding a whole gesture sequence through addGesture. -/
def feedGestures (windowMs : ℤ) (s : RapidPulseBuffer)
    (gs : List (GestureType × ℤ)) : RapidPulseBuffer :=
  gs.foldl (addGesture windowMs) s

/-- Transition events a gesture sequence records, given the category
last seen before the sequence: one event per adjacent pair of distinct
categories, stamped with the later timestamp. -/
def transitions : Option GestureType → List (GestureType × ℤ) → List StateChangeEvent
  | _, [] => []
  | last, g :: rest =>
      (match last with
       | some l => if l ≠ g.1 then [(⟨l, g.1, g.2⟩ : StateChangeEvent)] else []
       | none => ([] : List StateChangeEvent)) ++ transitions (some g.1) rest

end RapidPulseBuffer

/-! ### ParticleSystem (src/unnamed/part_006)

The engine owns the particle array, the four mode flags and the three
mode timers.  The THREE.BufferGeometry mirror of the positions, the
material and the glow texture are rendering state outside the modelled
core.  JavaScript quirk kept in mind below: for fewer than three
particles, orbitAroundBounds divides by a zero particlesPerStrategy and
produces NaN positions; the rational model uses total division (x / 0
is 0), which only affects particle placement values never used by the
claims. -/

/-- Per-particle state: mutable current, target and velocity, plus the
permanent identity fields fixed at creation. -/
structure Particle where
  current : Vec3
  target : Vec3
  velocity : Vec3
  idleOffset : Vec3
  color : Vec3
  speed : ℚ
  orbitAxis : Vec3
deriving DecidableEq, Repr

instance : Inhabited Particle := ⟨⟨default, default, default, default, default, 1, default⟩⟩

/-- Axis-aligned bounding box, as in THREE.Box3. -/
structure Box3 where
  min : Vec3
  max : Vec3
deriving DecidableEq, Repr

/-- Center of a box, as in THREE.Box3.getCenter. -/
def Box3.getCenter (b : Box3) : Vec3 := ((1 : ℚ) / 2) • (b.min + b.max)

/-- Symmetric expansion, as in THREE.Box3.expandByScalar. -/
def Box3.expandByScalar (b : Box3) (s : ℚ) : Box3 :=
  ⟨b.min - ⟨s, s, s⟩, b.max + ⟨s, s, s⟩⟩

/-- Whole mutable state of a ParticleSystem instance. -/
structure EngineState where
  particles : List Particle
  isIdle : Bool
  isExploding : Bool
  explosionTime : ℚ
  isDispersing : Bool
  dispersionTime : ℚ
  isOrbiting : Bool
  orbitBounds : Option Box3
  orbitTime : ℚ
deriving DecidableEq, Repr

namespace ParticleSystem

def EXPLOSION_DURATION : ℚ := 0.5

def DISPERSION_DURATION : ℚ := 0.3

/-- Replace the element at an index by applying a function, leaving the
list unchanged when the index is out of range (JavaScript array write
at the indices used here is always in range). -/
def updateAt {α : Type} : ℕ → (α → α) → List α → List α
  | _, _, [] => []
  | 0, f, a :: l => f a :: l
  | n + 1, f, a :: l => a :: updateAt n f l

/-- Creation of one particle, drawing the oracle randoms in the order
the source calls Math.random inside initializeParticles: sphere angles
and radius, color choice and the three color components of the chosen
palette branch, speed, orbit axis, idle offset.  Returns the particle
and the advanced random index. -/
def initParticle (o : MathOracle) (k : ℕ) : Particle × ℕ :=
  let theta := o.rand k * o.pi * 2
  let phi := o.acos (o.rand (k + 1) * 2 - 1)
  let radius := o.rand (k + 2) * PARTICLE_IDLE_RADIUS
  let x := radius * o.sin phi * o.cos theta
  let y := radius * o.sin phi * o.sin theta
  let z := radius * o.cos phi
  let colorChoice := o.rand (k + 3)
  let particleColor : Vec3 :=
    if colorChoice < 0.3 then
      ⟨o.rand (k + 4) * 0.4, 0.8 + o.rand (k + 5) * 0.2, 0.8 + o.rand (k + 6) * 0.2⟩
    else if colorChoice < 0.5 then
      ⟨o.rand (k + 4) * 0.2, 0.5 + o.rand (k + 5) * 0.3, 0.8 + o.rand (k + 6) * 0.2⟩
    else if colorChoice < 0.7 then
      ⟨0.6 + o.rand (k + 4) * 0.4, o.rand (k + 5) * 0.4, 0.8 + o.rand (k + 6) * 0.2⟩
    else if colorChoice < 0.85 then
      ⟨0.8 + o.rand (k + 4) * 0.2, 0.2 + o.rand (k + 5) * 0.3, 0.5 + o.rand (k + 6) * 0.3⟩
    else
      ⟨o.rand (k + 4) * 0.3, 0.8 + o.rand (k + 5) * 0.2, 0.5 + o.rand (k + 6) * 0.3⟩
  let speed := 0.5 + o.rand (k + 7) * 1.0
  let orbitAxis := vnormalize o
    ⟨o.rand (k + 8) * 2 - 1, o.rand (k + 9) * 0.6 - 0.3, o.rand (k + 10) * 2 - 1⟩
  let idleOffset := vnormalize o
    ⟨o.rand (k + 11) * 2 - 1, o.rand (k + 12) * 2 - 1, o.rand (k + 13) * 2 - 1⟩
  (⟨⟨x, y, z⟩, ⟨x, y, z⟩, ⟨0, 0, 0⟩, idleOffset, particleColor, speed, orbitAxis⟩, k + 14)

/-- The initializeParticles loop, pushing count particles in order. -/
def initializeParticles (o : MathOracle) : ℕ → ℕ → List Particle × ℕ
  | 0, k => ([], k)
  | n + 1, k =>
      let (p, k1) := initParticle o k
      let (ps, k2) := initializeParticles o n k1
      (p :: ps, k2)

/-- Engine construction: the particle array is initialized and every
mode flag but isIdle starts cleared. -/
def new (o : MathOracle) (particleCount : ℕ) : EngineState :=
  { particles := (initializeParticles o particleCount 0).1
    isIdle := true
    isExploding := false
    explosionTime := 0
    isDispersing := false
    dispersionTime := 0
    isOrbiting := false
    orbitBounds := none
    orbitTime := 0 }

/-- Fisher-Yates downward loop of setTarget: at loop counter i greater
than zero, draw j as the floor of rand times (i plus one) and swap the
entries at i and j.  The argument is the current value of i. -/
def fyLoop (o : MathOracle) : List ℕ → ℕ → ℕ → List ℕ × ℕ
  | l, 0, k => (l, k)
  | l, i + 1, k =>
      let j := (⌊o.rand k * ((i : ℚ) + 2)⌋).toNat
      let li := l.getD (i + 1) 0
      let lj := l.getD j 0
      let l1 := (l.set (i + 1) lj).set j li
      fyLoop o l1 i (k + 1)

/-- Assignment loop of setTarget: particle shuffledIndices i gets the
target point at i modulo targetCount, jittered per axis by the stacking
layer.  Arguments after the fixed ones: remaining iteration count,
current i, current random index, particle list. -/
def assignTargets (o : MathOracle) (points : List Vec3) (shuffled : List ℕ) :
    ℕ → ℕ → ℕ → List Particle → List Particle
  | 0, _, _, ps => ps
  | r + 1, i, k, ps =>
      let particleIndex := shuffled.getD i 0
      let targetIndex := i % points.length
      let point := points.getD targetIndex default
      let layer := i / points.length
      let jitter : ℚ := (layer : ℚ) * 0.05
      let nt : Vec3 :=
        ⟨point.x + (o.rand k - 0.5) * jitter,
         point.y + (o.rand (k + 1) - 0.5) * jitter,
         point.z + (o.rand (k + 2) - 0.5) * jitter⟩
      assignTargets o points shuffled r (i + 1) (k + 3)
        (updateAt particleIndex (fun p => { p with target := nt }) ps)

/-- Result of a setTarget call: the post-call state and whether the
call raised.  With an empty points array and a nonempty particle array
the source computes i modulo 0 (NaN), indexes points with it
(undefined) and reads .x, raising a TypeError; isIdle was already
cleared before the loop and no target had been assigned yet. -/
structure SetTargetResult where
  state : EngineState
  threw : Bool
deriving Repr

/-- The setTarget method: clear isIdle, shuffle the particle indices,
then assign jittered targets round-robin; raises on an empty points
array when there is at least one particle. -/
def setTarget (o : MathOracle) (s : EngineState) (points : List Vec3) : SetTargetResult :=
  let s1 := { s with isIdle := false }
  let n := s1.particles.length
  let fy := fyLoop o (List.range n) (n - 1) 0
  if points.length = 0 then
    { state := s1, threw := !decide (n = 0) }
  else
    { state := { s1 with particles := assignTargets o points fy.1 n 0 fy.2 s1.particles }
      threw := false }

/-- The setIdleState method: idle on, every other flag off, orbit
bounds dropped, and each target snapped to the current position. -/
def setIdleState (s : EngineState) : EngineState :=
  { s with isIdle := true
           isExploding := false
           isDispersing := false
           isOrbiting := false
           orbitBounds := none
           particles := s.particles.map (fun p => { p with target := p.current }) }

/-- Velocity loop of disperse: each particle gets a random normalized
direction scaled by 3 times its speed. -/
def disperseParticles (o : MathOracle) : ℕ → List Particle → List Particle
  | _, [] => []
  | k, p :: rest =>
      let randomDirection := vnormalize o
        ⟨o.rand k * 2 - 1, o.rand (k + 1) * 2 - 1, o.rand (k + 2) * 2 - 1⟩
      { p with velocity := (3.0 * p.speed) • randomDirection } :: disperseParticles o (k + 3) rest

/-- The disperse method: dispersing on, idle and exploding off, the
dispersion timer zeroed, velocities randomized outward.  The orbiting
flag is left untouched by the source. -/
def disperse (o : MathOracle) (s : EngineState) : EngineState :=
  { s with isDispersing := true
           isIdle := false
           isExploding := false
           dispersionTime := 0
           particles := disperseParticles o 0 s.particles }

/-- The explode method: exploding on, idle off, the explosion timer
zeroed, and each velocity set radially outward from the origin scaled
by 5 times the particle speed.  The dispersing and orbiting flags are
left untouched by the source. -/
def explode (o : MathOracle) (s : EngineState) : EngineState :=
  { s with isExploding := true
           isIdle := false
           explosionTime := 0
           particles := s.particles.map
             (fun p => { p with velocity := (5.0 * p.speed) • vnormalize o p.current }) }

/-- Placement loop of orbitAroundBounds: three interleaved distribution
strategies with per-particle noise, then a tangential initial velocity
from the particle orbit axis with a fixed-axis fallback.  Arguments
after the fixed ones: particle index i, random index, particles. -/
def orbitPlace (o : MathOracle) (center : Vec3) (pps : ℕ) :
    ℕ → ℕ → List Particle → List Particle
  | _, _, [] => []
  | i, k, p :: rest =>
      let strategy := (i / pps) % 3
      let branch : ℚ × ℚ × ℕ :=
        if strategy = 0 then
          let goldenRatio := (1 + o.sqrt 5) / 2
          (2 * o.pi * ((i % pps : ℕ) : ℚ) / goldenRatio,
           o.acos (1 - 2 * (((i % pps : ℕ) : ℚ) + 0.5) / ((pps : ℕ) : ℚ)), k)
        else if strategy = 1 then
          (o.rand k * 2 * o.pi, o.acos (2 * o.rand (k + 1) - 1), k + 2)
        else
          let layer := ((i % pps : ℕ) : ℚ) / ((pps : ℕ) : ℚ)
          ((o.rand k + (i : ℚ)) * 2 * o.pi * 0.618034, o.pi * layer, k + 1)
      let k1 := branch.2.2
      let theta := branch.1 + (o.rand k1 - 0.5) * 0.8
      let phi := branch.2.1 + (o.rand (k1 + 1) - 0.5) * 0.8
      let baseRadius : ℚ := 20
      let radiusVariation := (o.rand (k1 + 2) - 0.5) * 12
      let radius := baseRadius + radiusVariation
      let pos : Vec3 :=
        ⟨center.x + radius * o.sin phi * o.cos theta,
         center.y + radius * o.sin phi * o.sin theta,
         center.z + radius * o.cos phi⟩
      let radialDir := vnormalize o (pos - center)
      let tangent0 := vnormalize o (cross radialDir p.orbitAxis)
      let tangent1 :=
        if vlength o tangent0 < 0.01 then vnormalize o (cross radialDir ⟨1, 0, 0⟩)
        else tangent0
      let randomOffset : Vec3 :=
        ⟨(o.rand (k1 + 3) - 0.5) * 0.3, (o.rand (k1 + 4) - 0.5) * 0.3,
         (o.rand (k1 + 5) - 0.5) * 0.3⟩
      let tangent := vnormalize o (tangent1 + randomOffset)
      { p with current := pos, target := pos, velocity := (0.6 * p.speed) • tangent }
        :: orbitPlace o center pps (i + 1) (k1 + 6) rest

/-- The orbitAroundBounds method: orbiting on, the other flags off, the
orbit timer zeroed, the bounds cloned and expanded by 15, and particles
redistributed around the center of the unexpanded bounds. -/
def orbitAroundBounds (o : MathOracle) (s : EngineState) (bounds : Box3) : EngineState :=
  let expanded := bounds.expandByScalar 15
  let center := bounds.getCenter
  let pps := s.particles.length / 3
  { s with isOrbiting := true
           isIdle := false
           isExploding := false
           isDispersing := false
           orbitBounds := some expanded
           orbitTime := 0
           particles := orbitPlace o center pps 0 0 s.particles }

/-- Linear decay factor of the explosion: one at the start, zero from
the duration onward, clamped below at zero. -/
def explosionDecay (t : ℚ) : ℚ := max 0 (1 - t / EXPLOSION_DURATION)

/-- Linear decay factor of the dispersion, same shape with the shorter
duration. -/
def dispersionDecay (t : ℚ) : ℚ := max 0 (1 - t / DISPERSION_DURATION)

/-- The updateExplosion method: advance the timer, apply the decayed
velocity scaled by deltaTime, and clear the exploding flag once the
elapsed time reaches the duration. -/
def updateExplosion (deltaTime : ℚ) (s : EngineState) : EngineState :=
  let t := s.explosionTime + deltaTime
  let decayFactor := explosionDecay t
  let ps := s.particles.map
    (fun p => { p with current := p.current + (decayFactor * deltaTime) • p.velocity })
  if EXPLOSION_DURATION ≤ t then
    { s with explosionTime := t, particles := ps, isExploding := false }
  else
    { s with explosionTime := t, particles := ps }

/-- The updateDispersion method: like the explosion but with the 60 Hz
normalization factor, and on completion the engine returns to idle. -/
def updateDispersion (deltaTime : ℚ) (s : EngineState) : EngineState :=
  let t := s.dispersionTime + deltaTime
  let decayFactor := dispersionDecay t
  let ps := s.particles.map
    (fun p => { p with current := p.current + (decayFactor * deltaTime * 60) • p.velocity })
  if DISPERSION_DURATION ≤ t then
    { s with dispersionTime := t, particles := ps, isDispersing := false, isIdle := true }
  else
    { s with dispersionTime := t, particles := ps }

/-- Radial speed term of updateOrbiting: minus one half of the particle
speed when the distance to the orbit center exceeds the target distance
of 20, plus one half of it otherwise.  The sign is applied to the unit
vector pointing from the particle toward the center. -/
def orbitRadialSpeed (distance speed : ℚ) : ℚ :=
  (if 20 < distance then -0.5 else 0.5) * speed

/-- Per-particle loop of updateOrbiting: tangential velocity from the
orbit axis with fallback, radial term plus sinusoidal wave along the
direction to the center, Euler step scaled by deltaTime times 60, then
per-axis jitter. -/
def orbitStep (o : MathOracle) (center : Vec3) (orbitTime deltaTime : ℚ) :
    ℕ → List Particle → List Particle
  | _, [] => []
  | k, p :: rest =>
      let toCenter := center - p.current
      let distance := vlength o toCenter
      let radialDir := p.current - center
      let tangent0 := vnormalize o (cross radialDir p.orbitAxis)
      let tangent :=
        if vlength o tangent0 < 0.01 then vnormalize o (cross radialDir ⟨1, 0, 0⟩)
        else tangent0
      let wave := o.sin (orbitTime * 2 + p.current.x * 0.1 + p.current.z * 0.1) * 0.3
      let orbitalSpeed := 2.0 * p.speed
      let radialSpeed := orbitRadialSpeed distance p.speed
      let velocity := (orbitalSpeed • tangent) + ((radialSpeed + wave) • vnormalize o toCenter)
      let current1 := p.current + (deltaTime * 60) • velocity
      let jitter : Vec3 :=
        ⟨(o.rand k - 0.5) * 0.15, (o.rand (k + 1) - 0.5) * 0.15, (o.rand (k + 2) - 0.5) * 0.15⟩
      { p with velocity := velocity, current := current1 + jitter }
        :: orbitStep o center orbitTime deltaTime (k + 3) rest

/-- The updateOrbiting method: no-op without orbit bounds; otherwise
advance the orbit timer and run the per-particle loop around the center
of the stored expanded bounds. -/
def updateOrbiting (o : MathOracle) (deltaTime : ℚ) (s : EngineState) : EngineState :=
  match s.orbitBounds with
  | none => s
  | some b =>
      let t := s.orbitTime + deltaTime
      let center := b.getCenter
      { s with orbitTime := t, particles := orbitStep o center t deltaTime 0 s.particles }

/-- The updateIdleState method: sinusoidal drift along the idle offset,
then a clamp back onto the idle sphere.  deltaTime is accepted and
unused, as in the source. -/
def updateIdleState (o : MathOracle) (deltaTime : ℚ) (s : EngineState) : EngineState :=
  let _ := deltaTime
  { s with particles := s.particles.map (fun p =>
      let time := o.now
      let drift := (o.sin (time + p.current.x) * PARTICLE_DRIFT_SPEED * p.speed) • p.idleOffset
      let c1 := p.current + drift
      let c2 :=
        if PARTICLE_IDLE_RADIUS < vlength o c1 then PARTICLE_IDLE_RADIUS • vnormalize o c1
        else c1
      { p with current := c2 }) }

/-- Per-particle morph step of interpolateToTarget: move a fixed
fraction of the remaining distance while farther than 0.1 from the
target, otherwise add small per-axis jitter.  Returns the particle and
the advanced random index (randoms are drawn only in the jitter
branch, as in the source). -/
def interpolateParticle (o : MathOracle) (k : ℕ) (p : Particle) : Particle × ℕ :=
  let direction := p.target - p.current
  let distance := vlength o direction
  if 0.1 < distance then
    ({ p with current := p.current + (PARTICLE_MORPH_SPEED * p.speed) • direction }, k)
  else
    ({ p with current := p.current +
        ⟨(o.rand k - 0.5) * PARTICLE_JITTER_AMOUNT * p.speed,
         (o.rand (k + 1) - 0.5) * PARTICLE_JITTER_AMOUNT * p.speed,
         (o.rand (k + 2) - 0.5) * PARTICLE_JITTER_AMOUNT * p.speed⟩ }, k + 3)

/-- Particle loop of interpolateToTarget. -/
def interpolateList (o : MathOracle) : ℕ → List Particle → List Particle
  | _, [] => []
  | k, p :: rest =>
      let pk := interpolateParticle o k p
      pk.1 :: interpolateList o pk.2 rest

/-- The interpolateToTarget method.  deltaTime is accepted and unused,
as in the source. -/
def interpolateToTarget (o : MathOracle) (deltaTime : ℚ) (s : EngineState) : EngineState :=
  let _ := deltaTime
  { s with particles := interpolateList o 0 s.particles }

/-- The update method dispatch: exploding, then dispersing, then
orbiting, then idle, and otherwise the morph interpolation.  The write
of positions into the geometry buffer is rendering state outside the
model. -/
def update (o : MathOracle) (deltaTime : ℚ) (s : EngineState) : EngineState :=
  if s.isExploding then updateExplosion deltaTime s
  else if s.isDispersing then updateDispersion deltaTime s
  else if s.isOrbiting then updateOrbiting o deltaTime s
  else if s.isIdle then updateIdleState o deltaTime s
  else interpolateToTarget o deltaTime s

end ParticleSystem

/-! ### Call sequences against the engine -/

/-- One public engine call. -/
inductive Op where
  | setTarget (points : List Vec3)
  | setIdleState
  | disperse
  | explode
  | orbitAroundBounds (bounds : Box3)
  | update (dt : ℚ)

/-- Effect of one call on the engine state.  A setTarget that raises
leaves the partially mutated state behind (the orchestration layer of
the repository catches engine exceptions). -/
def step (o : MathOracle) (s : EngineState) : Op → EngineState
  | Op.setTarget points => (ParticleSystem.setTarget o s points).state
  | Op.setIdleState => ParticleSystem.setIdleState s
  | Op.disperse => ParticleSystem.disperse o s
  | Op.explode => ParticleSystem.explode o s
  | Op.orbitAroundBounds b => ParticleSystem.orbitAroundBounds o s b
  | Op.update dt => ParticleSystem.update o dt s

/-- Running a sequence of calls, each with its own oracle. -/
def run (s : EngineState) : List (Op × MathOracle) → EngineState
  | [] => s
  | (op, o) :: rest => run (step o s op) rest

/-- Guard under which a call keeps the mode flags mutually exclusive:
disperse must not arrive while orbiting (the source leaves isOrbiting
set), and explode must not arrive while orbiting or dispersing (the
source leaves both flags set). -/
def guardOK (s : EngineState) : Op → Bool
  | Op.disperse => !s.isOrbiting
  | Op.explode => !s.isOrbiting && !s.isDispersing
  | _ => true

/-- A call sequence every step of which satisfies the guard. -/
def goodRun (s : EngineState) : List (Op × MathOracle) → Bool
  | [] => true
  | (op, o) :: rest => guardOK s op && goodRun (step o s op) rest

/-- The mutually exclusive mode enumeration of the specification. -/
inductive Mode where
  | exploding
  | dispersing
  | orbiting
  | idle
  | morphing
deriving DecidableEq, Repr

/-- Mode that will govern the next update tick, following the dispatch
priority of the update method. -/
def dispatchMode (s : EngineState) : Mode :=
  if s.isExploding then Mode.exploding
  else if s.isDispersing then Mode.dispersing
  else if s.isOrbiting then Mode.orbiting
  else if s.isIdle then Mode.idle
  else Mode.morphing

/-- The morphing pseudo-flag: the engine morphs exactly when no flag is
set, matching the final else of the update dispatch. -/
def isMorphing (s : EngineState) : Bool :=
  !s.isIdle && !s.isExploding && !s.isDispersing && !s.isOrbiting

/-- Number of true flags among the five modes of the specification,
with morphing the derived flag. -/
def modeCount (s : EngineState) : ℕ :=
  s.isIdle.toNat + (isMorphing s).toNat + s.isExploding.toNat +
    s.isDispersing.toNat + s.isOrbiting.toNat

/-- Mutual exclusivity of the four stored flags. -/
def FlagsExclusive (s : EngineState) : Prop :=
  s.isIdle.toNat + s.isExploding.toNat + s.isDispersing.toNat + s.isOrbiting.toNat ≤ 1

instance (s : EngineState) : Decidable (FlagsExclusive s) := by
  unfold FlagsExclusive; infer_instance

/-! ### Target-text guard of the useParticleSystem hook
(src/src/hooks/useParticleSystem.ts) -/

/-- Labels with precomputed anchor points. -/
def TEXTS_TO_GENERATE : List String :=
  ["SoC", "Curiosity", "Ingenuity", "Deterministic", "SP School Of Computing"]

/-- Engine-facing action the hook takes for a changed target text. -/
inductive HookAction where
  | disperse
  | skip
  | explodeThenOrbit
  | orbit
deriving DecidableEq, Repr

/-- Decision of the hook for a changed target text: null disperses,
a label outside the pre-generated list is skipped with a warning and
the engine is never called, the special label explodes before
orbiting, and every other known label orbits. -/
def handleTargetText (targetText : Option String) : HookAction :=
  match targetText with
  | none => HookAction.disperse
  | some t =>
      if t ∉ TEXTS_TO_GENERATE then HookAction.skip
      else if t = "SP School Of Computing" then HookAction.explodeThenOrbit
      else HookAction.orbit

/-! ### Concrete instances used by witnesses and counterexamples -/

/-- Oracle returning zero everywhere: one concrete execution trace of
the library calls. -/
def trivialOracle : MathOracle :=
  { rand := fun _ => 0, sin := fun _ => 0, cos := fun _ => 0, acos := fun _ => 0,
    sqrt := fun _ => 0, pi := 0, now := 0 }

/-- Oracle whose square root answers the 0.1 threshold comparison the
way a true square root does. -/
def thresholdOracle : MathOracle :=
  { rand := fun _ => 0, sin := fun _ => 0, cos := fun _ => 0, acos := fun _ => 0,
    sqrt := fun q => if 1 / 100 < q then 1 else 0, pi := 0, now := 0 }

/-- Synthetic landmark set: every tip y strictly below the matching
pip y (the thumb tip below the thumb ip as well), but the thumb not
laterally extended, since all x coordinates coincide. -/
def palmNoThumb : List Vec3 :=
  [⟨0, 1, 0⟩, ⟨0, 1, 0⟩, ⟨0, 1, 0⟩, ⟨0, 1, 0⟩, ⟨0, 0, 0⟩,
   ⟨0, 1, 0⟩, ⟨0, 1, 0⟩, ⟨0, 1, 0⟩, ⟨0, 0, 0⟩,
   ⟨0, 1, 0⟩, ⟨0, 1, 0⟩, ⟨0, 1, 0⟩, ⟨0, 0, 0⟩,
   ⟨0, 1, 0⟩, ⟨0, 1, 0⟩, ⟨0, 1, 0⟩, ⟨0, 0, 0⟩,
   ⟨0, 1, 0⟩, ⟨0, 1, 0⟩, ⟨0, 1, 0⟩, ⟨0, 0, 0⟩]

/-- Engine state with a single particle away from its target and no
mode flag set, as after a setTarget from idle: the morphing regime. -/
def morphWitnessState : EngineState :=
  { particles := [{ current := ⟨1, 0, 0⟩, target := ⟨0, 0, 0⟩, velocity := ⟨0, 0, 0⟩,
                    idleOffset := ⟨1, 0, 0⟩, color := ⟨1, 1, 1⟩, speed := 1,
                    orbitAxis := ⟨0, 1, 0⟩ }]
    isIdle := false
    isExploding := false
    explosionTime := 0
    isDispersing := false
    dispersionTime := 0
    isOrbiting := false
    orbitBounds := none
    orbitTime := 0 }

/-- Engine state mid-explosion with one moving particle. -/
def explodingWitnessState : EngineState :=
  { particles := [{ current := ⟨1, 0, 0⟩, target := ⟨0, 0, 0⟩, velocity := ⟨1, 0, 0⟩,
                    idleOffset := ⟨1, 0, 0⟩, color := ⟨1, 1, 1⟩, speed := 1,
                    orbitAxis := ⟨0, 1, 0⟩ }]
    isIdle := false
    isExploding := true
    explosionTime := 0
    isDispersing := false
    dispersionTime := 0
    isOrbiting := false
    orbitBounds := none
    orbitTime := 0 }

/-! ## Theorems

Helper lemmas first, then one theorem per claim with its witness or
counterexample. -/

@[simp] theorem Vec3.add_x (a b : Vec3) : (a + b).x = a.x + b.x := rfl

@[simp] theorem Vec3.add_y (a b : Vec3) : (a + b).y = a.y + b.y := rfl

@[simp] theorem Vec3.add_z (a b : Vec3) : (a + b).z = a.z + b.z := rfl

@[simp] theorem Vec3.sub_x (a b : Vec3) : (a - b).x = a.x - b.x := rfl

@[simp] theorem Vec3.sub_y (a b : Vec3) : (a - b).y = a.y - b.y := rfl

@[simp] theorem Vec3.sub_z (a b : Vec3) : (a - b).z = a.z - b.z := rfl

@[simp] theorem Vec3.smul_x (c : ℚ) (v : Vec3) : (c • v).x = c * v.x := rfl

@[simp] theorem Vec3.smul_y (c : ℚ) (v : Vec3) : (c • v).y = c * v.y := rfl

@[simp] theorem Vec3.smul_z (c : ℚ) (v : Vec3) : (c • v).z = c * v.z := rfl

theorem normSq_nonneg (v : Vec3) : 0 ≤ normSq v := by
  unfold normSq
  nlinarith [mul_self_nonneg v.x, mul_self_nonneg v.y, mul_self_nonneg v.z]

/-- C10: whenever detectRapidPulse returns false it leaves the
detector state completely unchanged, so polling the detector without
a firing never loses accumulated evidence. -/
theorem C10_detect_false_frame (minChanges : ℕ) (s : RapidPulseBuffer)
    (h : (RapidPulseBuffer.detectRapidPulse minChanges s).1 = false) :
    (RapidPulseBuffer.detectRapidPulse minChanges s).2 = s := by
  unfold RapidPulseBuffer.detectRapidPulse at h ⊢
  split_ifs at h ⊢ <;> simp_all

/-- Witness for C10 at a concrete nonempty buffer on which detection
answers false. -/
theorem C10_witness :
    (RapidPulseBuffer.detectRapidPulse 3
      ⟨[⟨GestureType.OPEN_PALM, GestureType.FIST, 0⟩], some GestureType.FIST⟩).1 = false ∧
    (RapidPulseBuffer.detectRapidPulse 3
      ⟨[⟨GestureType.OPEN_PALM, GestureType.FIST, 0⟩], some GestureType.FIST⟩).2 =
      (⟨[⟨GestureType.OPEN_PALM, GestureType.FIST, 0⟩], some GestureType.FIST⟩ : RapidPulseBuffer) :=
  ⟨by decide, C10_detect_false_frame 3 _ (by decide)⟩

/-- C5: the radial term of updateOrbiting, applied along the unit
vector that points from the particle toward the orbit center, is
negative (an outward push) whenever the distance exceeds the target
distance 20, and positive (an inward push) whenever it does not —
the opposite of the proportional control the specification and the
inline comment describe. -/
theorem C5_radial_sign (distance speed : ℚ) (hspeed : 0 < speed) :
    (20 < distance → ParticleSystem.orbitRadialSpeed distance speed < 0) ∧
    (distance ≤ 20 → 0 < ParticleSystem.orbitRadialSpeed distance speed) := by
  unfold ParticleSystem.orbitRadialSpeed
  constructor
  · intro h
    rw [if_pos h]
    nlinarith
  · intro h
    rw [if_neg (by linarith)]
    nlinarith

/-- Witness for C5 at distance 30 and unit speed: the radial term is
negative although the particle is farther than the target distance. -/
theorem C5_witness :
    (0 : ℚ) < 1 ∧
    ((20 : ℚ) < 30 → ParticleSystem.orbitRadialSpeed 30 1 < 0) ∧
    ((30 : ℚ) ≤ 20 → 0 < ParticleSystem.orbitRadialSpeed 30 1) :=
  ⟨by norm_num, C5_radial_sign 30 1 (by norm_num)⟩

/-- C8 (amended): for every 21-point landmark set in which each
non-thumb finger tip y is strictly below the matching pip y and the
thumb passes its horizontal-distance test, classify reports 5 extended
fingers and OPEN_PALM with confidence 1.  The tip-over-pip condition
alone does not determine the thumb, which the source tests by x
distance from the wrist. -/
theorem C8_open_palm_amended (landmarks : List Vec3)
    (hlen : landmarks.length = 21)
    (hidx : (getLandmark landmarks INDEX_TIP).y < (getLandmark landmarks INDEX_PIP).y)
    (hmid : (getLandmark landmarks MIDDLE_TIP).y < (getLandmark landmarks MIDDLE_PIP).y)
    (hring : (getLandmark landmarks RING_TIP).y < (getLandmark landmarks RING_PIP).y)
    (hpinky : (getLandmark landmarks PINKY_TIP).y < (getLandmark landmarks PINKY_PIP).y)
    (hthumb : |(getLandmark landmarks THUMB_MCP).x - (getLandmark landmarks WRIST).x| * 1.3 <
      |(getLandmark landmarks THUMB_TIP).x - (getLandmark landmarks WRIST).x|) :
    GestureClassifier.countExtendedFingers landmarks = 5 ∧
    GestureClassifier.classify landmarks = ⟨GestureType.OPEN_PALM, 1⟩ := by
  have eidx : GestureClassifier.isFingerExtended landmarks INDEX_TIP INDEX_PIP = true := by
    simp [GestureClassifier.isFingerExtended, hidx]
  have emid : GestureClassifier.isFingerExtended landmarks MIDDLE_TIP MIDDLE_PIP = true := by
    simp [GestureClassifier.isFingerExtended, hmid]
  have ering : GestureClassifier.isFingerExtended landmarks RING_TIP RING_PIP = true := by
    simp [GestureClassifier.isFingerExtended, hring]
  have epinky : GestureClassifier.isFingerExtended landmarks PINKY_TIP PINKY_PIP = true := by
    simp [GestureClassifier.isFingerExtended, hpinky]
  have ethumb : GestureClassifier.isThumbExtended landmarks = true := by
    simp only [GestureClassifier.isThumbExtended, decide_eq_true_eq]
    exact hthumb
  have hcount : GestureClassifier.countExtendedFingers landmarks = 5 := by
    unfold GestureClassifier.countExtendedFingers
    rw [eidx, emid, ering, epinky, ethumb]
    norm_num
  refine ⟨hcount, ?_⟩
  unfold GestureClassifier.classify
  rw [if_neg (by omega), hcount]
  simp

/-- Counterexample to C8 as stated: a 21-point landmark set with every
tip y strictly below the matching pip y, in which the classifier
nevertheless counts only 4 extended fingers and answers UNKNOWN,
because the thumb test uses horizontal distances and all x coordinates
coincide. -/
theorem C8_counterexample :
    palmNoThumb.length = 21 ∧
    (getLandmark palmNoThumb INDEX_TIP).y < (getLandmark palmNoThumb INDEX_PIP).y ∧
    (getLandmark palmNoThumb MIDDLE_TIP).y < (getLandmark palmNoThumb MIDDLE_PIP).y ∧
    (getLandmark palmNoThumb RING_TIP).y < (getLandmark palmNoThumb RING_PIP).y ∧
    (getLandmark palmNoThumb PINKY_TIP).y < (getLandmark palmNoThumb PINKY_PIP).y ∧
    (getLandmark palmNoThumb THUMB_TIP).y < (getLandmark palmNoThumb THUMB_IP).y ∧
    GestureClassifier.countExtendedFingers palmNoThumb = 4 ∧
    (GestureClassifier.classify palmNoThumb).type = GestureType.UNKNOWN ∧
    GestureClassifier.classify palmNoThumb ≠ ⟨GestureType.OPEN_PALM, 1⟩ := by
  have hthumb : GestureClassifier.isThumbExtended palmNoThumb = false := by
    have h4 : getLandmark palmNoThumb THUMB_TIP = ⟨0, 0, 0⟩ := by decide
    have h2 : getLandmark palmNoThumb THUMB_MCP = ⟨0, 1, 0⟩ := by decide
    have h0 : getLandmark palmNoThumb WRIST = ⟨0, 1, 0⟩ := by decide
    simp only [GestureClassifier.isThumbExtended, h4, h2, h0]
    norm_num
  have hcount : GestureClassifier.countExtendedFingers palmNoThumb = 4 := by
    unfold GestureClassifier.countExtendedFingers
    rw [hthumb, (by decide : GestureClassifier.isFingerExtended palmNoThumb INDEX_TIP INDEX_PIP = true),
      (by decide : GestureClassifier.isFingerExtended palmNoThumb MIDDLE_TIP MIDDLE_PIP = true),
      (by decide : GestureClassifier.isFingerExtended palmNoThumb RING_TIP RING_PIP = true),
      (by decide : GestureClassifier.isFingerExtended palmNoThumb PINKY_TIP PINKY_PIP = true)]
    norm_num
  have hclassify : GestureClassifier.classify palmNoThumb = ⟨GestureType.UNKNOWN, 0.5⟩ := by
    unfold GestureClassifier.classify
    rw [if_neg (by decide), hcount]
    rw [if_neg (by decide), if_neg ?hpoint, if_neg ?hvictory, if_neg ?hthree, if_neg ?hfist]
    case hpoint => decide
    case hvictory => decide
    case hthree => decide
    case hfist => decide
  refine ⟨by decide, by decide, by decide, by decide, by decide, by decide, hcount, ?_, ?_⟩
  · rw [hclassify]
  · rw [hclassify]
    decide

/-- Witness for C8 on a landmark set whose thumb is laterally
extended as well. -/
theorem C8_witness :
    GestureClassifier.countExtendedFingers
      (palmNoThumb.set THUMB_TIP ⟨1, 0, 0⟩) = 5 ∧
    GestureClassifier.classify (palmNoThumb.set THUMB_TIP ⟨1, 0, 0⟩) =
      ⟨GestureType.OPEN_PALM, 1⟩ :=
  C8_open_palm_amended (palmNoThumb.set THUMB_TIP ⟨1, 0, 0⟩)
    (by decide) (by decide) (by decide) (by decide) (by decide)
    (by
      have h4 : getLandmark (palmNoThumb.set THUMB_TIP ⟨1, 0, 0⟩) THUMB_TIP = ⟨1, 0, 0⟩ := by
        decide
      have h2 : getLandmark (palmNoThumb.set THUMB_TIP ⟨1, 0, 0⟩) THUMB_MCP = ⟨0, 1, 0⟩ := by
        decide
      have h0 : getLandmark (palmNoThumb.set THUMB_TIP ⟨1, 0, 0⟩) WRIST = ⟨0, 1, 0⟩ := by
        decide
      rw [h4, h2, h0]
      norm_num)

/-- C2: feeding OPEN_PALM, FIST, OPEN_PALM, FIST, OPEN_PALM with
nondecreasing timestamps whose four transitions all lie within the
window makes detectRapidPulse fire exactly once: the first call
returns true and clears the buffer and lastGesture, and an immediate
second call returns false. -/
theorem C2_pattern_one_shot (t1 t2 t3 t4 t5 : ℤ)
    (h12 : t1 ≤ t2) (h23 : t2 ≤ t3) (h34 : t3 ≤ t4) (h45 : t4 ≤ t5)
    (hwin : t5 - t2 ≤ RAPID_PULSE_WINDOW_MS) :
    (RapidPulseBuffer.detectRapidPulse RAPID_PULSE_MIN_CHANGES
      (RapidPulseBuffer.feedGestures RAPID_PULSE_WINDOW_MS RapidPulseBuffer.new
        [(GestureType.OPEN_PALM, t1), (GestureType.FIST, t2), (GestureType.OPEN_PALM, t3),
         (GestureType.FIST, t4), (GestureType.OPEN_PALM, t5)])).1 = true ∧
    (RapidPulseBuffer.detectRapidPulse RAPID_PULSE_MIN_CHANGES
      (RapidPulseBuffer.feedGestures RAPID_PULSE_WINDOW_MS RapidPulseBuffer.new
        [(GestureType.OPEN_PALM, t1), (GestureType.FIST, t2), (GestureType.OPEN_PALM, t3),
         (GestureType.FIST, t4), (GestureType.OPEN_PALM, t5)])).2.buffer = [] ∧
    (RapidPulseBuffer.detectRapidPulse RAPID_PULSE_MIN_CHANGES
      (RapidPulseBuffer.feedGestures RAPID_PULSE_WINDOW_MS RapidPulseBuffer.new
        [(GestureType.OPEN_PALM, t1), (GestureType.FIST, t2), (GestureType.OPEN_PALM, t3),
         (GestureType.FIST, t4), (GestureType.OPEN_PALM, t5)])).2.lastGesture = none ∧
    (RapidPulseBuffer.detectRapidPulse RAPID_PULSE_MIN_CHANGES
      ((RapidPulseBuffer.detectRapidPulse RAPID_PULSE_MIN_CHANGES
        (RapidPulseBuffer.feedGestures RAPID_PULSE_WINDOW_MS RapidPulseBuffer.new
          [(GestureType.OPEN_PALM, t1), (GestureType.FIST, t2), (GestureType.OPEN_PALM, t3),
           (GestureType.FIST, t4), (GestureType.OPEN_PALM, t5)])).2)).1 = false := by
  have c22 : t2 ≤ t2 + RAPID_PULSE_WINDOW_MS := by unfold RAPID_PULSE_WINDOW_MS; omega
  have c32 : t3 ≤ t2 + RAPID_PULSE_WINDOW_MS := by unfold RAPID_PULSE_WINDOW_MS at *; omega
  have c33 : t3 ≤ t3 + RAPID_PULSE_WINDOW_MS := by unfold RAPID_PULSE_WINDOW_MS; omega
  have c42 : t4 ≤ t2 + RAPID_PULSE_WINDOW_MS := by unfold RAPID_PULSE_WINDOW_MS at *; omega
  have c43 : t4 ≤ t3 + RAPID_PULSE_WINDOW_MS := by unfold RAPID_PULSE_WINDOW_MS at *; omega
  have c44 : t4 ≤ t4 + RAPID_PULSE_WINDOW_MS := by unfold RAPID_PULSE_WINDOW_MS; omega
  have c52 : t5 ≤ t2 + RAPID_PULSE_WINDOW_MS := by unfold RAPID_PULSE_WINDOW_MS at *; omega
  have c53 : t5 ≤ t3 + RAPID_PULSE_WINDOW_MS := by unfold RAPID_PULSE_WINDOW_MS at *; omega
  have c54 : t5 ≤ t4 + RAPID_PULSE_WINDOW_MS := by unfold RAPID_PULSE_WINDOW_MS at *; omega
  have c55 : t5 ≤ t5 + RAPID_PULSE_WINDOW_MS := by unfold RAPID_PULSE_WINDOW_MS; omega
  have hfeed : RapidPulseBuffer.feedGestures RAPID_PULSE_WINDOW_MS RapidPulseBuffer.new
      [(GestureType.OPEN_PALM, t1), (GestureType.FIST, t2), (GestureType.OPEN_PALM, t3),
       (GestureType.FIST, t4), (GestureType.OPEN_PALM, t5)] =
      ⟨[⟨GestureType.OPEN_PALM, GestureType.FIST, t2⟩,
        ⟨GestureType.FIST, GestureType.OPEN_PALM, t3⟩,
        ⟨GestureType.OPEN_PALM, GestureType.FIST, t4⟩,
        ⟨GestureType.FIST, GestureType.OPEN_PALM, t5⟩], some GestureType.OPEN_PALM⟩ := by
    simp only [RapidPulseBuffer.feedGestures, List.foldl, RapidPulseBuffer.addGesture,
      RapidPulseBuffer.new, RapidPulseBuffer.cleanOldEvents, List.filter, List.append_eq,
      List.nil_append, List.cons_append]
    simp [c22, c32, c33, c42, c43, c44, c52, c53, c54, c55]
  rw [hfeed]
  exact ⟨rfl, rfl, rfl, rfl⟩

/-- Witness for C2 at timestamps 0, 100, 200, 300, 400. -/
theorem C2_witness :
    ((0 : ℤ) ≤ 100 ∧ (100 : ℤ) ≤ 200 ∧ (200 : ℤ) ≤ 300 ∧ (300 : ℤ) ≤ 400 ∧
      (400 : ℤ) - 100 ≤ RAPID_PULSE_WINDOW_MS) ∧
    (RapidPulseBuffer.detectRapidPulse RAPID_PULSE_MIN_CHANGES
      (RapidPulseBuffer.feedGestures RAPID_PULSE_WINDOW_MS RapidPulseBuffer.new
        [(GestureType.OPEN_PALM, 0), (GestureType.FIST, 100), (GestureType.OPEN_PALM, 200),
         (GestureType.FIST, 300), (GestureType.OPEN_PALM, 400)])).1 = true ∧
    (RapidPulseBuffer.detectRapidPulse RAPID_PULSE_MIN_CHANGES
      (RapidPulseBuffer.feedGestures RAPID_PULSE_WINDOW_MS RapidPulseBuffer.new
        [(GestureType.OPEN_PALM, 0), (GestureType.FIST, 100), (GestureType.OPEN_PALM, 200),
         (GestureType.FIST, 300), (GestureType.OPEN_PALM, 400)])).2.buffer = [] ∧
    (RapidPulseBuffer.detectRapidPulse RAPID_PULSE_MIN_CHANGES
      (RapidPulseBuffer.feedGestures RAPID_PULSE_WINDOW_MS RapidPulseBuffer.new
        [(GestureType.OPEN_PALM, 0), (GestureType.FIST, 100), (GestureType.OPEN_PALM, 200),
         (GestureType.FIST, 300), (GestureType.OPEN_PALM, 400)])).2.lastGesture = none ∧
    (RapidPulseBuffer.detectRapidPulse RAPID_PULSE_MIN_CHANGES
      ((RapidPulseBuffer.detectRapidPulse RAPID_PULSE_MIN_CHANGES
        (RapidPulseBuffer.feedGestures RAPID_PULSE_WINDOW_MS RapidPulseBuffer.new
          [(GestureType.OPEN_PALM, 0), (GestureType.FIST, 100), (GestureType.OPEN_PALM, 200),
           (GestureType.FIST, 300), (GestureType.OPEN_PALM, 400)])).2)).1 = false :=
  ⟨by decide,
   C2_pattern_one_shot 0 100 200 300 400 (by decide) (by decide) (by decide) (by decide)
     (by decide)⟩

theorem addGesture_none (W : ℤ) (buf : List StateChangeEvent) (g : GestureType × ℤ) :
    RapidPulseBuffer.addGesture W ⟨buf, none⟩ g = ⟨buf, some g.1⟩ := rfl

theorem addGesture_same (W : ℤ) (buf : List StateChangeEvent) (l : GestureType)
    (g : GestureType × ℤ) (h : l = g.1) :
    RapidPulseBuffer.addGesture W ⟨buf, some l⟩ g = ⟨buf, some g.1⟩ := by
  simp [RapidPulseBuffer.addGesture, h]

theorem addGesture_diff (W : ℤ) (buf : List StateChangeEvent) (l : GestureType)
    (g : GestureType × ℤ) (h : l ≠ g.1) :
    RapidPulseBuffer.addGesture W ⟨buf, some l⟩ g =
      ⟨RapidPulseBuffer.cleanOldEvents W g.2 (buf ++ [⟨l, g.1, g.2⟩]), some g.1⟩ := by
  simp [RapidPulseBuffer.addGesture, h]

theorem addGesture_lastGesture (W : ℤ) (s : RapidPulseBuffer) (g : GestureType × ℤ) :
    (RapidPulseBuffer.addGesture W s g).lastGesture = some g.1 := by
  rcases s with ⟨buf, last⟩
  cases last with
  | none => rw [addGesture_none]
  | some l =>
      by_cases h : l = g.1
      · rw [addGesture_same W buf l g h]
      · rw [addGesture_diff W buf l g h]

theorem transitions_single_none (g : GestureType × ℤ) :
    RapidPulseBuffer.transitions none [g] = [] := rfl

theorem transitions_single_same (l : GestureType) (g : GestureType × ℤ) (h : l = g.1) :
    RapidPulseBuffer.transitions (some l) [g] = [] := by
  simp [RapidPulseBuffer.transitions, h]

theorem transitions_single_diff (l : GestureType) (g : GestureType × ℤ) (h : l ≠ g.1) :
    RapidPulseBuffer.transitions (some l) [g] = [⟨l, g.1, g.2⟩] := by
  simp [RapidPulseBuffer.transitions, h]

theorem addGesture_buffer_sublist (W : ℤ) (s : RapidPulseBuffer) (g : GestureType × ℤ) :
    List.Sublist (RapidPulseBuffer.addGesture W s g).buffer
      (s.buffer ++ RapidPulseBuffer.transitions s.lastGesture [g]) := by
  rcases s with ⟨buf, last⟩
  cases last with
  | none =>
      rw [addGesture_none, transitions_single_none]
      simpa using List.Sublist.refl buf
  | some l =>
      by_cases h : l = g.1
      · rw [addGesture_same W buf l g h, transitions_single_same l g h]
        simpa using List.Sublist.refl buf
      · rw [addGesture_diff W buf l g h, transitions_single_diff l g h]
        exact List.filter_sublist (buf ++ [⟨l, g.1, g.2⟩])

theorem transitions_cons_split (last : Option GestureType) (g : GestureType × ℤ)
    (rest : List (GestureType × ℤ)) :
    RapidPulseBuffer.transitions last (g :: rest) =
      RapidPulseBuffer.transitions last [g] ++ RapidPulseBuffer.transitions (some g.1) rest := by
  cases last with
  | none => simp [RapidPulseBuffer.transitions]
  | some l =>
      by_cases h : l = g.1
      · simp [RapidPulseBuffer.transitions, h]
      · simp [RapidPulseBuffer.transitions, h]

theorem feed_buffer_sublist (W : ℤ) (gs : List (GestureType × ℤ)) :
    ∀ s : RapidPulseBuffer,
      List.Sublist (RapidPulseBuffer.feedGestures W s gs).buffer
        (s.buffer ++ RapidPulseBuffer.transitions s.lastGesture gs) := by
  induction gs with
  | nil =>
      intro s
      simpa [RapidPulseBuffer.feedGestures, RapidPulseBuffer.transitions]
        using List.Sublist.refl s.buffer
  | cons g rest ih =>
      intro s
      have h2 := ih (RapidPulseBuffer.addGesture W s g)
      rw [addGesture_lastGesture] at h2
      have h1 := addGesture_buffer_sublist W s g
      have hstep : RapidPulseBuffer.feedGestures W s (g :: rest) =
          RapidPulseBuffer.feedGestures W (RapidPulseBuffer.addGesture W s g) rest := rfl
      rw [hstep, transitions_cons_split, ← List.append_assoc]
      exact h2.trans (List.Sublist.append h1 (List.Sublist.refl _))

theorem feed_append_last (W : ℤ) (gs : List (GestureType × ℤ)) (s : RapidPulseBuffer)
    (g : GestureType × ℤ) :
    RapidPulseBuffer.feedGestures W s (gs ++ [g]) =
      RapidPulseBuffer.addGesture W (RapidPulseBuffer.feedGestures W s gs) g := by
  simp [RapidPulseBuffer.feedGestures, List.foldl_append]

theorem feed_lastGesture_concat (W : ℤ) (gs1 : List (GestureType × ℤ))
    (g : GestureType × ℤ) (s : RapidPulseBuffer) :
    (RapidPulseBuffer.feedGestures W s (gs1 ++ [g])).lastGesture = some g.1 := by
  rw [feed_append_last, addGesture_lastGesture]

theorem addGesture_recorded_mem_window (W : ℤ) (s : RapidPulseBuffer) (ty : GestureType)
    (ts : ℤ) (l : GestureType) (hl : s.lastGesture = some l) (hne : l ≠ ty) :
    ∀ e ∈ (RapidPulseBuffer.addGesture W s (ty, ts)).buffer, ts - W ≤ e.timestamp := by
  rcases s with ⟨buf, last⟩
  cases hl
  rw [addGesture_diff W buf l (ty, ts) hne]
  intro e he
  simp only [RapidPulseBuffer.cleanOldEvents, List.mem_filter] at he
  exact of_decide_eq_true he.2

/-- C3 (amended): an alternating OPEN_PALM and FIST sequence leaves
detectRapidPulse returning false when fewer than minChanges of its
recorded transitions carry timestamps within windowMs of the final
transition timestamp.  Spreading the whole sequence over more than
windowMs is not by itself enough: the buffer is pruned against the
latest timestamp only, so the pattern still fires whenever at least
minChanges transitions fit the final window. -/
theorem C3_window_expiry_amended (gs : List (GestureType × ℤ)) (ty : GestureType) (ts : ℤ)
    (hchain : List.Chain' (fun a b => a.1 ≠ b.1) (gs ++ [(ty, ts)]))
    (hcount : ((RapidPulseBuffer.transitions none (gs ++ [(ty, ts)])).countP
        (fun e => decide (ts - RAPID_PULSE_WINDOW_MS ≤ e.timestamp))) <
      RAPID_PULSE_MIN_CHANGES) :
    (RapidPulseBuffer.detectRapidPulse RAPID_PULSE_MIN_CHANGES
      (RapidPulseBuffer.feedGestures RAPID_PULSE_WINDOW_MS RapidPulseBuffer.new
        (gs ++ [(ty, ts)]))).1 = false := by
  have hlen : (RapidPulseBuffer.feedGestures RAPID_PULSE_WINDOW_MS RapidPulseBuffer.new
      (gs ++ [(ty, ts)])).buffer.length < RAPID_PULSE_MIN_CHANGES := by
    by_cases hnil : gs = []
    · subst hnil
      simp [RapidPulseBuffer.feedGestures, RapidPulseBuffer.addGesture, RapidPulseBuffer.new,
        RAPID_PULSE_MIN_CHANGES]
    · have hlastne : ∃ l : GestureType,
          (RapidPulseBuffer.feedGestures RAPID_PULSE_WINDOW_MS RapidPulseBuffer.new
            gs).lastGesture = some l ∧ l ≠ ty := by
        rcases List.eq_nil_or_concat gs with hnil2 | ⟨gs1, glast, hcat⟩
        · exact absurd hnil2 hnil
        · refine ⟨glast.1, ?_, ?_⟩
          · rw [hcat, List.concat_eq_append, feed_lastGesture_concat]
          · rw [hcat, List.concat_eq_append, List.append_assoc] at hchain
            rcases List.chain'_append.mp hchain with ⟨-, hrest, -⟩
            simpa using (List.chain'_cons.mp hrest).1
      rcases hlastne with ⟨l, hlast, hne⟩
      have hwindow : ∀ e ∈ (RapidPulseBuffer.feedGestures RAPID_PULSE_WINDOW_MS
          RapidPulseBuffer.new (gs ++ [(ty, ts)])).buffer,
          ts - RAPID_PULSE_WINDOW_MS ≤ e.timestamp := by
        rw [feed_append_last]
        exact addGesture_recorded_mem_window RAPID_PULSE_WINDOW_MS _ ty ts l hlast hne
      have hsub : List.Sublist (RapidPulseBuffer.feedGestures RAPID_PULSE_WINDOW_MS
          RapidPulseBuffer.new (gs ++ [(ty, ts)])).buffer
          (RapidPulseBuffer.transitions none (gs ++ [(ty, ts)])) := by
        simpa [RapidPulseBuffer.new] using
          feed_buffer_sublist RAPID_PULSE_WINDOW_MS (gs ++ [(ty, ts)]) RapidPulseBuffer.new
      have hcp : (RapidPulseBuffer.feedGestures RAPID_PULSE_WINDOW_MS RapidPulseBuffer.new
          (gs ++ [(ty, ts)])).buffer.countP
          (fun e => decide (ts - RAPID_PULSE_WINDOW_MS ≤ e.timestamp)) =
          (RapidPulseBuffer.feedGestures RAPID_PULSE_WINDOW_MS RapidPulseBuffer.new
          (gs ++ [(ty, ts)])).buffer.length := by
        rw [List.countP_eq_length]
        intro a ha
        exact decide_eq_true (hwindow a ha)
      calc (RapidPulseBuffer.feedGestures RAPID_PULSE_WINDOW_MS RapidPulseBuffer.new
          (gs ++ [(ty, ts)])).buffer.length
          = _ := hcp.symm
        _ ≤ (RapidPulseBuffer.transitions none (gs ++ [(ty, ts)])).countP
            (fun e => decide (ts - RAPID_PULSE_WINDOW_MS ≤ e.timestamp)) :=
            hsub.countP_le _
        _ < RAPID_PULSE_MIN_CHANGES := hcount
  unfold RapidPulseBuffer.detectRapidPulse
  rw [if_pos hlen]

/-- Counterexample to C3 as stated: an alternating OPEN_PALM and FIST
sequence whose transitions span 1800 ms, more than the 1500 ms window,
yet detectRapidPulse fires, because the three latest transitions still
fit the window anchored at the final timestamp. -/
theorem C3_counterexample :
    (RapidPulseBuffer.detectRapidPulse RAPID_PULSE_MIN_CHANGES
      (RapidPulseBuffer.feedGestures RAPID_PULSE_WINDOW_MS RapidPulseBuffer.new
        [(GestureType.OPEN_PALM, 0), (GestureType.FIST, 100), (GestureType.OPEN_PALM, 700),
         (GestureType.FIST, 1300), (GestureType.OPEN_PALM, 1900)])).1 = true ∧
    RAPID_PULSE_WINDOW_MS < 1900 - 100 ∧ RAPID_PULSE_WINDOW_MS < 1900 - 0 := by
  decide

/-- Witness for C3 on an alternating sequence with only two
transitions inside the final window. -/
theorem C3_witness :
    List.Chain' (fun a b => a.1 ≠ b.1)
      ([(GestureType.OPEN_PALM, 0), (GestureType.FIST, 100), (GestureType.OPEN_PALM, 200),
        (GestureType.FIST, 1900)] ++ [(GestureType.OPEN_PALM, (2000 : ℤ))]) ∧
    ((RapidPulseBuffer.transitions none
      ([(GestureType.OPEN_PALM, 0), (GestureType.FIST, 100), (GestureType.OPEN_PALM, 200),
        (GestureType.FIST, 1900)] ++ [(GestureType.OPEN_PALM, (2000 : ℤ))])).countP
      (fun e => decide ((2000 : ℤ) - RAPID_PULSE_WINDOW_MS ≤ e.timestamp))) <
      RAPID_PULSE_MIN_CHANGES ∧
    (RapidPulseBuffer.detectRapidPulse RAPID_PULSE_MIN_CHANGES
      (RapidPulseBuffer.feedGestures RAPID_PULSE_WINDOW_MS RapidPulseBuffer.new
        ([(GestureType.OPEN_PALM, 0), (GestureType.FIST, 100), (GestureType.OPEN_PALM, 200),
          (GestureType.FIST, 1900)] ++ [(GestureType.OPEN_PALM, (2000 : ℤ))]))).1 = false :=
  ⟨by simp [List.chain'_cons, List.chain'_singleton], by decide,
   C3_window_expiry_amended
     [(GestureType.OPEN_PALM, 0), (GestureType.FIST, 100), (GestureType.OPEN_PALM, 200),
      (GestureType.FIST, 1900)] GestureType.OPEN_PALM 2000
     (by simp [List.chain'_cons, List.chain'_singleton]) (by decide)⟩

theorem setTarget_state_flags (o : MathOracle) (s : EngineState) (points : List Vec3) :
    (ParticleSystem.setTarget o s points).state.isIdle = false ∧
    (ParticleSystem.setTarget o s points).state.isExploding = s.isExploding ∧
    (ParticleSystem.setTarget o s points).state.isDispersing = s.isDispersing ∧
    (ParticleSystem.setTarget o s points).state.isOrbiting = s.isOrbiting ∧
    (ParticleSystem.setTarget o s points).state.explosionTime = s.explosionTime := by
  unfold ParticleSystem.setTarget
  dsimp only
  split <;> simp

theorem update_flags_exploding (o : MathOracle) (dt : ℚ) (s : EngineState)
    (he : s.isExploding = true) :
    (ParticleSystem.update o dt s).isIdle = s.isIdle ∧
    (ParticleSystem.update o dt s).isDispersing = s.isDispersing ∧
    (ParticleSystem.update o dt s).isOrbiting = s.isOrbiting ∧
    ((ParticleSystem.update o dt s).isExploding = s.isExploding ∨
      (ParticleSystem.update o dt s).isExploding = false) := by
  unfold ParticleSystem.update ParticleSystem.updateExplosion
  rw [if_pos he]
  dsimp only
  split <;> simp

theorem update_flags_dispersing (o : MathOracle) (dt : ℚ) (s : EngineState)
    (he : s.isExploding = false) (hd : s.isDispersing = true) :
    ((ParticleSystem.update o dt s).isIdle = s.isIdle ∧
      (ParticleSystem.update o dt s).isExploding = s.isExploding ∧
      (ParticleSystem.update o dt s).isDispersing = s.isDispersing ∧
      (ParticleSystem.update o dt s).isOrbiting = s.isOrbiting) ∨
    ((ParticleSystem.update o dt s).isIdle = true ∧
      (ParticleSystem.update o dt s).isExploding = s.isExploding ∧
      (ParticleSystem.update o dt s).isDispersing = false ∧
      (ParticleSystem.update o dt s).isOrbiting = s.isOrbiting) := by
  unfold ParticleSystem.update ParticleSystem.updateDispersion
  rw [if_neg (by simp [he]), if_pos hd]
  dsimp only
  split
  · right; simp
  · left; simp

theorem update_flags_other (o : MathOracle) (dt : ℚ) (s : EngineState)
    (he : s.isExploding = false) (hd : s.isDispersing = false) :
    (ParticleSystem.update o dt s).isIdle = s.isIdle ∧
    (ParticleSystem.update o dt s).isExploding = s.isExploding ∧
    (ParticleSystem.update o dt s).isDispersing = s.isDispersing ∧
    (ParticleSystem.update o dt s).isOrbiting = s.isOrbiting := by
  unfold ParticleSystem.update ParticleSystem.updateOrbiting ParticleSystem.updateIdleState
    ParticleSystem.interpolateToTarget
  rw [if_neg (by simp [he]), if_neg (by simp [hd])]
  by_cases ho : s.isOrbiting
  · rw [if_pos ho]
    dsimp only
    split <;> simp
  · rw [if_neg ho]
    by_cases hi : s.isIdle
    · rw [if_pos hi]
      simp
    · rw [if_neg hi]
      simp

theorem exclusive_step (o : MathOracle) (s : EngineState) (op : Op)
    (hex : FlagsExclusive s) (hg : guardOK s op = true) : FlagsExclusive (step o s op) := by
  cases op with
  | setTarget points =>
      obtain ⟨h1, h2, h3, h4, -⟩ := setTarget_state_flags o s points
      show FlagsExclusive (ParticleSystem.setTarget o s points).state
      unfold FlagsExclusive at hex ⊢
      rw [h1, h2, h3, h4]
      simp only [Bool.toNat_false]
      omega
  | setIdleState =>
      show FlagsExclusive (ParticleSystem.setIdleState s)
      simp [FlagsExclusive, ParticleSystem.setIdleState]
  | disperse =>
      have horb : s.isOrbiting = false := by simpa [guardOK] using hg
      show FlagsExclusive (ParticleSystem.disperse o s)
      simp [FlagsExclusive, ParticleSystem.disperse, horb]
  | explode =>
      have hg2 : s.isOrbiting = false ∧ s.isDispersing = false := by
        simpa [guardOK] using hg
      show FlagsExclusive (ParticleSystem.explode o s)
      simp [FlagsExclusive, ParticleSystem.explode, hg2.1, hg2.2]
  | orbitAroundBounds b =>
      show FlagsExclusive (ParticleSystem.orbitAroundBounds o s b)
      simp [FlagsExclusive, ParticleSystem.orbitAroundBounds]
  | update dt =>
      show FlagsExclusive (ParticleSystem.update o dt s)
      unfold FlagsExclusive at hex ⊢
      by_cases he : s.isExploding = true
      · obtain ⟨h1, h2, h3, h4⟩ := update_flags_exploding o dt s he
        rcases h4 with h4 | h4 <;> rw [h1, h2, h3, h4] <;>
          (try simp only [Bool.toNat_false]) <;> omega
      · rw [Bool.not_eq_true] at he
        by_cases hd : s.isDispersing = true
        · rcases update_flags_dispersing o dt s he hd with ⟨h1, h2, h3, h4⟩ | ⟨h1, h2, h3, h4⟩ <;>
            rw [h1, h2, h3, h4]
          · omega
          · rw [he, hd] at hex
            rw [he]
            revert hex
            simp only [Bool.toNat_false, Bool.toNat_true]
            omega
        · rw [Bool.not_eq_true] at hd
          obtain ⟨h1, h2, h3, h4⟩ := update_flags_other o dt s he hd
          rw [h1, h2, h3, h4]
          omega

theorem exclusive_run (ops : List (Op × MathOracle)) :
    ∀ s : EngineState, FlagsExclusive s → goodRun s ops = true → FlagsExclusive (run s ops) := by
  induction ops with
  | nil => intro s h _; exact h
  | cons p rest ih =>
      intro s h hg
      rcases p with ⟨op, o⟩
      rw [goodRun, Bool.and_eq_true] at hg
      exact ih (step o s op) (exclusive_step o s op h hg.1) hg.2

theorem modeCount_eq_one_iff (s : EngineState) : modeCount s = 1 ↔ FlagsExclusive s := by
  rcases s with ⟨ps, i, e, et, d, dtime, orb, ob, ot⟩
  cases i <;> cases e <;> cases d <;> cases orb <;>
    simp [modeCount, isMorphing, FlagsExclusive]

theorem new_flags_exclusive (o : MathOracle) (particleCount : ℕ) :
    FlagsExclusive (ParticleSystem.new o particleCount) := by
  simp [FlagsExclusive, ParticleSystem.new]

/-- C1 (amended): after engine construction, every call sequence in
which disperse is only invoked while not orbiting and explode only
while neither orbiting nor dispersing keeps exactly one of the five
modes idle, morphing, exploding, dispersing, orbiting active at every
tick (morphing being the absence of every stored flag, as in the
update dispatch).  Without that restriction the stored flags are not
mutually exclusive. -/
theorem C1_mode_exclusivity_guarded (o0 : MathOracle) (particleCount : ℕ)
    (ops : List (Op × MathOracle))
    (hgood : goodRun (ParticleSystem.new o0 particleCount) ops = true) :
    modeCount (run (ParticleSystem.new o0 particleCount) ops) = 1 := by
  rw [modeCount_eq_one_iff]
  exact exclusive_run ops _ (new_flags_exclusive o0 particleCount) hgood

/-- Witness for C1 on a guarded three-call trace through explosion,
a tick, and the return to idle. -/
theorem C1_witness :
    goodRun (ParticleSystem.new trivialOracle 0)
      [(Op.explode, trivialOracle), (Op.update 1, trivialOracle),
       (Op.setIdleState, trivialOracle)] = true ∧
    modeCount (run (ParticleSystem.new trivialOracle 0)
      [(Op.explode, trivialOracle), (Op.update 1, trivialOracle),
       (Op.setIdleState, trivialOracle)]) = 1 :=
  ⟨by decide, C1_mode_exclusivity_guarded trivialOracle 0 _ (by decide)⟩

/-- Counterexample to C1 as stated: after construction, orbiting and
then dispersing leaves both the orbiting and the dispersing flags set,
so the five modes are not mutually exclusive. -/
theorem C1_counterexample :
    modeCount (run (ParticleSystem.new trivialOracle 0)
      [(Op.orbitAroundBounds ⟨⟨0, 0, 0⟩, ⟨1, 1, 1⟩⟩, trivialOracle),
       (Op.disperse, trivialOracle)]) ≠ 1 ∧
    (run (ParticleSystem.new trivialOracle 0)
      [(Op.orbitAroundBounds ⟨⟨0, 0, 0⟩, ⟨1, 1, 1⟩⟩, trivialOracle),
       (Op.disperse, trivialOracle)]).isOrbiting = true ∧
    (run (ParticleSystem.new trivialOracle 0)
      [(Op.orbitAroundBounds ⟨⟨0, 0, 0⟩, ⟨1, 1, 1⟩⟩, trivialOracle),
       (Op.disperse, trivialOracle)]).isDispersing = true := by
  decide

/-- C4 (amended): setTarget does not cancel an in-progress explosion:
called while EXPLODING it raises nothing, leaves the exploding flag
set and the explosion timer untouched, and the next update tick is
still dispatched to the explosion, so the new targets only take effect
after the explosion duration elapses.  Only setIdleState,
orbitAroundBounds (and, for the exploding flag, disperse) reset the
prior mode. -/
theorem C4_cancellation_amended (o : MathOracle) (s : EngineState) (points : List Vec3)
    (hexpl : s.isExploding = true) (hpts : points ≠ []) :
    (ParticleSystem.setTarget o s points).threw = false ∧
    (ParticleSystem.setTarget o s points).state.isExploding = true ∧
    (ParticleSystem.setTarget o s points).state.explosionTime = s.explosionTime ∧
    dispatchMode (ParticleSystem.setTarget o s points).state = Mode.exploding := by
  obtain ⟨-, h2, -, -, h5⟩ := setTarget_state_flags o s points
  have hthrew : (ParticleSystem.setTarget o s points).threw = false := by
    unfold ParticleSystem.setTarget
    dsimp only
    rw [if_neg (by simpa using hpts)]
  refine ⟨hthrew, h2.trans hexpl, h5, ?_⟩
  unfold dispatchMode
  rw [h2.trans hexpl]
  simp

/-- Witness for C4: an exploding single-point retarget keeps the
explosion governing the next tick. -/
theorem C4_witness :
    (ParticleSystem.explode trivialOracle explodingWitnessState).isExploding = true ∧
    ([(⟨0, 0, 0⟩ : Vec3)] ≠ ([] : List Vec3)) ∧
    (ParticleSystem.setTarget trivialOracle
      (ParticleSystem.explode trivialOracle explodingWitnessState) [⟨0, 0, 0⟩]).threw = false ∧
    (ParticleSystem.setTarget trivialOracle
      (ParticleSystem.explode trivialOracle explodingWitnessState)
      [⟨0, 0, 0⟩]).state.isExploding = true ∧
    (ParticleSystem.setTarget trivialOracle
      (ParticleSystem.explode trivialOracle explodingWitnessState)
      [⟨0, 0, 0⟩]).state.explosionTime =
      (ParticleSystem.explode trivialOracle explodingWitnessState).explosionTime ∧
    dispatchMode (ParticleSystem.setTarget trivialOracle
      (ParticleSystem.explode trivialOracle explodingWitnessState) [⟨0, 0, 0⟩]).state =
      Mode.exploding :=
  ⟨by decide, by decide,
   (C4_cancellation_amended trivialOracle
     (ParticleSystem.explode trivialOracle explodingWitnessState) [⟨0, 0, 0⟩]
     (by decide) (by decide)).1,
   (C4_cancellation_amended trivialOracle
     (ParticleSystem.explode trivialOracle explodingWitnessState) [⟨0, 0, 0⟩]
     (by decide) (by decide)).2.1,
   (C4_cancellation_amended trivialOracle
     (ParticleSystem.explode trivialOracle explodingWitnessState) [⟨0, 0, 0⟩]
     (by decide) (by decide)).2.2.1,
   (C4_cancellation_amended trivialOracle
     (ParticleSystem.explode trivialOracle explodingWitnessState) [⟨0, 0, 0⟩]
     (by decide) (by decide)).2.2.2⟩

/-- Counterexample to C4 as stated: after explode then setTarget, the
exploding flag is still set and the next update tick is dispatched to
the explosion, not to the newly requested morph. -/
theorem C4_counterexample :
    (step trivialOracle (step trivialOracle (ParticleSystem.new trivialOracle 0) Op.explode)
      (Op.setTarget [⟨0, 0, 0⟩])).isExploding = true ∧
    dispatchMode (step trivialOracle
      (step trivialOracle (ParticleSystem.new trivialOracle 0) Op.explode)
      (Op.setTarget [⟨0, 0, 0⟩])) = Mode.exploding ∧
    dispatchMode (step trivialOracle
      (step trivialOracle (ParticleSystem.new trivialOracle 0) Op.explode)
      (Op.setTarget [⟨0, 0, 0⟩])) ≠ Mode.morphing := by
  decide

/-- C7 (amended): a label outside the pre-generated list is a no-op at
the orchestration layer, where the hook skips without calling the
engine; the engine itself, handed an empty target list while owning at
least one particle, raises a TypeError after clearing only the idle
flag, leaving every particle untouched. -/
theorem C7_empty_target_amended (o : MathOracle) (s : EngineState) (t : String)
    (hps : s.particles ≠ []) (ht : t ∉ TEXTS_TO_GENERATE) :
    handleTargetText (some t) = HookAction.skip ∧
    (ParticleSystem.setTarget o s []).threw = true ∧
    (ParticleSystem.setTarget o s []).state.particles = s.particles ∧
    (ParticleSystem.setTarget o s []).state.isIdle = false := by
  refine ⟨?_, ?_, ?_, ?_⟩
  · simp [handleTargetText, ht]
  · unfold ParticleSystem.setTarget
    simp [List.length_eq_zero, hps]
  · unfold ParticleSystem.setTarget
    simp
  · unfold ParticleSystem.setTarget
    simp

/-- Witness for C7 on a one-particle engine and an unknown label. -/
theorem C7_witness :
    (ParticleSystem.new trivialOracle 1).particles ≠ [] ∧
    "Hello" ∉ TEXTS_TO_GENERATE ∧
    handleTargetText (some "Hello") = HookAction.skip ∧
    (ParticleSystem.setTarget trivialOracle (ParticleSystem.new trivialOracle 1) []).threw =
      true ∧
    (ParticleSystem.setTarget trivialOracle
      (ParticleSystem.new trivialOracle 1) []).state.particles =
      (ParticleSystem.new trivialOracle 1).particles ∧
    (ParticleSystem.setTarget trivialOracle
      (ParticleSystem.new trivialOracle 1) []).state.isIdle = false :=
  ⟨by decide, by decide,
   (C7_empty_target_amended trivialOracle (ParticleSystem.new trivialOracle 1) "Hello"
     (by decide) (by decide)).1,
   (C7_empty_target_amended trivialOracle (ParticleSystem.new trivialOracle 1) "Hello"
     (by decide) (by decide)).2.1,
   (C7_empty_target_amended trivialOracle (ParticleSystem.new trivialOracle 1) "Hello"
     (by decide) (by decide)).2.2.1,
   (C7_empty_target_amended trivialOracle (ParticleSystem.new trivialOracle 1) "Hello"
     (by decide) (by decide)).2.2.2⟩

/-- Counterexample to C7 as stated: setTarget with the empty list on a
one-particle engine raises (threw is true), and the isIdle flag has
already been flipped, so the call is observable. -/
theorem C7_counterexample :
    (ParticleSystem.setTarget trivialOracle (ParticleSystem.new trivialOracle 1) []).threw =
      true ∧
    (ParticleSystem.new trivialOracle 1).isIdle = true ∧
    (ParticleSystem.setTarget trivialOracle
      (ParticleSystem.new trivialOracle 1) []).state.isIdle = false := by
  decide

theorem explosionDecay_bounds (t : ℚ) (ht : 0 ≤ t) :
    0 ≤ ParticleSystem.explosionDecay t ∧ ParticleSystem.explosionDecay t ≤ 1 := by
  unfold ParticleSystem.explosionDecay ParticleSystem.EXPLOSION_DURATION
  refine ⟨le_max_left 0 _, max_le (by norm_num) ?_⟩
  have h : 0 ≤ t / (0.5 : ℚ) := div_nonneg ht (by norm_num)
  linarith

theorem dispersionDecay_bounds (t : ℚ) (ht : 0 ≤ t) :
    0 ≤ ParticleSystem.dispersionDecay t ∧ ParticleSystem.dispersionDecay t ≤ 1 := by
  unfold ParticleSystem.dispersionDecay ParticleSystem.DISPERSION_DURATION
  refine ⟨le_max_left 0 _, max_le (by norm_num) ?_⟩
  have h : 0 ≤ t / (0.3 : ℚ) := div_nonneg ht (by norm_num)
  linarith

theorem explosionDecay_clamped (t : ℚ) (ht : ParticleSystem.EXPLOSION_DURATION ≤ t) :
    ParticleSystem.explosionDecay t = 0 := by
  unfold ParticleSystem.explosionDecay ParticleSystem.EXPLOSION_DURATION at *
  apply max_eq_left
  have h : (1 : ℚ) ≤ t / 0.5 := by
    rw [le_div_iff (by norm_num)]
    linarith
  linarith

theorem dispersionDecay_clamped (t : ℚ) (ht : ParticleSystem.DISPERSION_DURATION ≤ t) :
    ParticleSystem.dispersionDecay t = 0 := by
  unfold ParticleSystem.dispersionDecay ParticleSystem.DISPERSION_DURATION at *
  apply max_eq_left
  have h : (1 : ℚ) ≤ t / 0.3 := by
    rw [le_div_iff (by norm_num)]
    linarith
  linarith

theorem updateExplosion_particles (dt : ℚ) (s : EngineState) :
    (ParticleSystem.updateExplosion dt s).particles = s.particles.map
      (fun p => { p with current := p.current +
        (ParticleSystem.explosionDecay (s.explosionTime + dt) * dt) • p.velocity }) := by
  unfold ParticleSystem.updateExplosion
  dsimp only
  split <;> rfl

theorem updateDispersion_particles (dt : ℚ) (s : EngineState) :
    (ParticleSystem.updateDispersion dt s).particles = s.particles.map
      (fun p => { p with current := p.current +
        (ParticleSystem.dispersionDecay (s.dispersionTime + dt) * dt * 60) • p.velocity }) := by
  unfold ParticleSystem.updateDispersion
  dsimp only
  split <;> rfl

/-- C9: for every nonnegative dt, zero and arbitrarily large alike,
the explosion and dispersion decay factors stay within the unit
interval and clamp to exactly zero once the elapsed mode time reaches
the mode duration, and update in those modes computes each new
position by the total rational-valued Euler step, which in particular
applies zero displacement once the decay factor has clamped. -/
theorem C9_timestep_robustness (o : MathOracle) (dt : ℚ) (s : EngineState)
    (hdt : 0 ≤ dt) (het : 0 ≤ s.explosionTime) (hdtm : 0 ≤ s.dispersionTime) :
    (0 ≤ ParticleSystem.explosionDecay (s.explosionTime + dt) ∧
      ParticleSystem.explosionDecay (s.explosionTime + dt) ≤ 1) ∧
    (0 ≤ ParticleSystem.dispersionDecay (s.dispersionTime + dt) ∧
      ParticleSystem.dispersionDecay (s.dispersionTime + dt) ≤ 1) ∧
    (ParticleSystem.EXPLOSION_DURATION ≤ s.explosionTime + dt →
      ParticleSystem.explosionDecay (s.explosionTime + dt) = 0) ∧
    (ParticleSystem.DISPERSION_DURATION ≤ s.dispersionTime + dt →
      ParticleSystem.dispersionDecay (s.dispersionTime + dt) = 0) ∧
    (s.isExploding = true → (ParticleSystem.update o dt s).particles =
      s.particles.map (fun p => { p with current := p.current +
        (ParticleSystem.explosionDecay (s.explosionTime + dt) * dt) • p.velocity })) ∧
    (s.isExploding = false → s.isDispersing = true →
      (ParticleSystem.update o dt s).particles =
      s.particles.map (fun p => { p with current := p.current +
        (ParticleSystem.dispersionDecay (s.dispersionTime + dt) * dt * 60) • p.velocity })) := by
  refine ⟨explosionDecay_bounds _ (by linarith), dispersionDecay_bounds _ (by linarith),
    explosionDecay_clamped _, dispersionDecay_clamped _, ?_, ?_⟩
  · intro he
    unfold ParticleSystem.update
    rw [if_pos he]
    exact updateExplosion_particles dt s
  · intro he hd
    unfold ParticleSystem.update
    rw [if_neg (by simp [he]), if_pos hd]
    exact updateDispersion_particles dt s

/-- Witness for C9 at dt equal to 1, twice the explosion duration. -/
theorem C9_witness :
    ((0 : ℚ) ≤ 1 ∧ 0 ≤ explodingWitnessState.explosionTime ∧
      0 ≤ explodingWitnessState.dispersionTime) ∧
    (0 ≤ ParticleSystem.explosionDecay (explodingWitnessState.explosionTime + 1) ∧
      ParticleSystem.explosionDecay (explodingWitnessState.explosionTime + 1) ≤ 1) ∧
    (ParticleSystem.EXPLOSION_DURATION ≤ explodingWitnessState.explosionTime + 1 →
      ParticleSystem.explosionDecay (explodingWitnessState.explosionTime + 1) = 0) ∧
    (explodingWitnessState.isExploding = true →
      (ParticleSystem.update trivialOracle 1 explodingWitnessState).particles =
      explodingWitnessState.particles.map (fun p => { p with current := p.current +
        (ParticleSystem.explosionDecay (explodingWitnessState.explosionTime + 1) * 1) •
          p.velocity })) :=
  ⟨⟨by norm_num, by decide, by decide⟩,
   (C9_timestep_robustness trivialOracle 1 explodingWitnessState (by norm_num) (by decide)
     (by decide)).1,
   (C9_timestep_robustness trivialOracle 1 explodingWitnessState (by norm_num) (by decide)
     (by decide)).2.2.1,
   (C9_timestep_robustness trivialOracle 1 explodingWitnessState (by norm_num) (by decide)
     (by decide)).2.2.2.2.1⟩

theorem normSq_contract (t c : Vec3) (k : ℚ) :
    normSq (t - (c + k • (t - c))) = (1 - k) * (1 - k) * normSq (t - c) := by
  simp only [normSq, Vec3.sub_x, Vec3.sub_y, Vec3.sub_z, Vec3.add_x, Vec3.add_y, Vec3.add_z,
    Vec3.smul_x, Vec3.smul_y, Vec3.smul_z]
  ring

theorem component_sq_le (a b c : ℚ) (h : a * a + b * b + c * c ≤ 1 / 100) :
    a * a ≤ 1 / 100 ∧ b * b ≤ 1 / 100 ∧ c * c ≤ 1 / 100 := by
  refine ⟨?_, ?_, ?_⟩ <;>
    nlinarith [mul_self_nonneg a, mul_self_nonneg b, mul_self_nonneg c]

theorem jitter_component_sq_le (r sp : ℚ) (hr0 : 0 ≤ r) (hr1 : r < 1)
    (hsp1 : 1 / 2 ≤ sp) (hsp2 : sp ≤ 3 / 2) :
    ((r - 0.5) * PARTICLE_JITTER_AMOUNT * sp) * ((r - 0.5) * PARTICLE_JITTER_AMOUNT * sp) ≤
      9 / 2500 := by
  unfold PARTICLE_JITTER_AMOUNT
  have h1 : (r - 0.5) * (r - 0.5) ≤ 1 / 4 := by nlinarith
  have h2 : sp * sp ≤ 9 / 4 := by nlinarith
  have h3 : 0 ≤ (r - 0.5) * (r - 0.5) := mul_self_nonneg _
  have h4 : 0 ≤ sp * sp := mul_self_nonneg _
  have h5 : (r - 0.5) * (r - 0.5) * (sp * sp) ≤ 1 / 4 * (9 / 4) :=
    mul_le_mul h1 h2 h4 (by norm_num)
  nlinarith

theorem axis_jitter_bound (a b : ℚ) (ha : a * a ≤ 1 / 100) (hb : b * b ≤ 9 / 2500) :
    (a - b) * (a - b) ≤ 16 / 625 := by
  nlinarith [sq_nonneg (3 * a + 5 * b)]

theorem interpolateParticle_bounds (o : MathOracle) (hrand : randInRange o)
    (hsqrt : sqrtThresholdFaithful o) (k : ℕ) (p : Particle)
    (hsp1 : 1 / 2 ≤ p.speed) (hsp2 : p.speed ≤ 3 / 2) :
    (ParticleSystem.interpolateParticle o k p).1.target = p.target ∧
    ((1 : ℚ) / 100 < normSq (p.target - p.current) →
      normSq ((ParticleSystem.interpolateParticle o k p).1.target -
        (ParticleSystem.interpolateParticle o k p).1.current) ≤
        normSq (p.target - p.current)) ∧
    (normSq (p.target - p.current) ≤ 48 / 625 →
      normSq ((ParticleSystem.interpolateParticle o k p).1.target -
        (ParticleSystem.interpolateParticle o k p).1.current) ≤ 48 / 625) ∧
    (normSq (p.target - p.current) ≤ 1 / 100 →
      normSq ((ParticleSystem.interpolateParticle o k p).1.target -
        (ParticleSystem.interpolateParticle o k p).1.current) ≤ 48 / 625) := by
  unfold ParticleSystem.interpolateParticle
  dsimp only
  by_cases h : (0.1 : ℚ) < vlength o (p.target - p.current)
  · rw [if_pos h]
    dsimp only
    have hgt : (1 : ℚ) / 100 < normSq (p.target - p.current) := by
      apply (hsqrt (p.target - p.current)).mp
      have h01 : (0.1 : ℚ) = 1 / 10 := by norm_num
      rw [h01] at h
      exact h
    have hc1 : 0 ≤ PARTICLE_MORPH_SPEED * p.speed := by
      unfold PARTICLE_MORPH_SPEED
      nlinarith
    have hc2 : PARTICLE_MORPH_SPEED * p.speed ≤ 1 := by
      unfold PARTICLE_MORPH_SPEED
      nlinarith
    have hfac : (1 - PARTICLE_MORPH_SPEED * p.speed) * (1 - PARTICLE_MORPH_SPEED * p.speed) ≤
        1 := by nlinarith
    have hns := normSq_contract p.target p.current (PARTICLE_MORPH_SPEED * p.speed)
    have hnn := normSq_nonneg (p.target - p.current)
    have hle : normSq (p.target - (p.current +
        (PARTICLE_MORPH_SPEED * p.speed) • (p.target - p.current))) ≤
        normSq (p.target - p.current) := by
      rw [hns]
      nlinarith
    refine ⟨rfl, fun _ => hle, fun hsmall => le_trans hle hsmall,
      fun hsmall => le_trans hle (by linarith)⟩
  · rw [if_neg h]
    dsimp only
    have hle : normSq (p.target - p.current) ≤ 1 / 100 := by
      by_contra hcon
      exact h (by
        have h01 : (0.1 : ℚ) = 1 / 10 := by norm_num
        rw [h01]
        exact (hsqrt (p.target - p.current)).mpr (lt_of_not_le hcon))
    obtain ⟨ha, hb, hc⟩ := component_sq_le _ _ _ (by
      have : normSq (p.target - p.current) =
          (p.target.x - p.current.x) * (p.target.x - p.current.x) +
          (p.target.y - p.current.y) * (p.target.y - p.current.y) +
          (p.target.z - p.current.z) * (p.target.z - p.current.z) := by
        simp [normSq]
      rw [← this]
      exact hle)
    have hjx := jitter_component_sq_le (o.rand k) p.speed (hrand k).1 (hrand k).2 hsp1 hsp2
    have hjy := jitter_component_sq_le (o.rand (k + 1)) p.speed (hrand (k + 1)).1
      (hrand (k + 1)).2 hsp1 hsp2
    have hjz := jitter_component_sq_le (o.rand (k + 2)) p.speed (hrand (k + 2)).1
      (hrand (k + 2)).2 hsp1 hsp2
    have hax := axis_jitter_bound _ _ ha hjx
    have hay := axis_jitter_bound _ _ hb hjy
    have haz := axis_jitter_bound _ _ hc hjz
    have hbound : normSq (p.target - (p.current +
        (⟨(o.rand k - 0.5) * PARTICLE_JITTER_AMOUNT * p.speed,
          (o.rand (k + 1) - 0.5) * PARTICLE_JITTER_AMOUNT * p.speed,
          (o.rand (k + 2) - 0.5) * PARTICLE_JITTER_AMOUNT * p.speed⟩ : Vec3))) ≤ 48 / 625 := by
      simp only [normSq, Vec3.sub_x, Vec3.sub_y, Vec3.sub_z, Vec3.add_x, Vec3.add_y, Vec3.add_z]
      nlinarith [hax, hay, haz]
    exact ⟨rfl, fun hcon => absurd hcon (by linarith), fun _ => hbound, fun _ => hbound⟩

theorem interpolateList_forall₂ (o : MathOracle) (P : Particle → Particle → Prop)
    (l : List Particle)
    (hP : ∀ (k : ℕ) (p : Particle), p ∈ l → P p (ParticleSystem.interpolateParticle o k p).1) :
    ∀ k0 : ℕ, List.Forall₂ P l (ParticleSystem.interpolateList o k0 l) := by
  induction l with
  | nil => intro k0; exact List.Forall₂.nil
  | cons p rest ih =>
      intro k0
      have hstep : ParticleSystem.interpolateList o k0 (p :: rest) =
          (ParticleSystem.interpolateParticle o k0 p).1 ::
            ParticleSystem.interpolateList o (ParticleSystem.interpolateParticle o k0 p).2
              rest := rfl
      rw [hstep]
      exact List.Forall₂.cons (hP k0 p (List.mem_cons_self p rest))
        (ih (fun k q hq => hP k q (List.mem_cons_of_mem p hq)) _)

theorem update_morph (o : MathOracle) (dt : ℚ) (s : EngineState)
    (h1 : s.isExploding = false) (h2 : s.isDispersing = false)
    (h3 : s.isOrbiting = false) (h4 : s.isIdle = false) :
    (ParticleSystem.update o dt s).particles = ParticleSystem.interpolateList o 0 s.particles := by
  unfold ParticleSystem.update ParticleSystem.interpolateToTarget
  rw [if_neg (by simp [h1]), if_neg (by simp [h2]), if_neg (by simp [h3]),
    if_neg (by simp [h4])]

/-- C6: in the morphing regime (no mode flag set, as after setTarget
from idle), one update with positive dt leaves every particle target
fixed, strictly contracts the squared distance to the target whenever
it exceeds the 0.1 threshold (squared, 1/100), and keeps any particle
already within the jitter-bounded neighborhood of squared radius
48/625 inside it, so distance is non-increasing above the threshold
and particles below it stay near the target indefinitely.  The oracle
hypotheses say the random stream lies in the Math.random interval and
the square root answers the threshold comparison faithfully. -/
theorem C6_morph_convergence (o : MathOracle) (dt : ℚ) (s : EngineState)
    (hrand : randInRange o) (hsqrt : sqrtThresholdFaithful o) (hdt : 0 < dt)
    (hexpl : s.isExploding = false) (hdisp : s.isDispersing = false)
    (horb : s.isOrbiting = false) (hidle : s.isIdle = false)
    (hspeed : ∀ p ∈ s.particles, 1 / 2 ≤ p.speed ∧ p.speed ≤ 3 / 2) :
    List.Forall₂ (fun p q =>
      q.target = p.target ∧
      ((1 : ℚ) / 100 < normSq (p.target - p.current) →
        normSq (q.target - q.current) ≤ normSq (p.target - p.current)) ∧
      (normSq (p.target - p.current) ≤ 48 / 625 → normSq (q.target - q.current) ≤ 48 / 625) ∧
      (normSq (p.target - p.current) ≤ 1 / 100 → normSq (q.target - q.current) ≤ 48 / 625))
      s.particles (ParticleSystem.update o dt s).particles := by
  rw [update_morph o dt s hexpl hdisp horb hidle]
  apply interpolateList_forall₂
  intro k p hp
  obtain ⟨ht, hc1, hc2, hc3⟩ := interpolateParticle_bounds o hrand hsqrt k p
    (hspeed p hp).1 (hspeed p hp).2
  exact ⟨ht, hc1, hc2, hc3⟩

theorem thresholdOracle_randInRange : randInRange thresholdOracle :=
  fun _ => ⟨le_refl 0, by norm_num [thresholdOracle]⟩

theorem thresholdOracle_sqrtFaithful : sqrtThresholdFaithful thresholdOracle := by
  intro v
  by_cases h : (1 : ℚ) / 100 < normSq v
  · simp only [vlength, thresholdOracle, if_pos h]
    norm_num
    exact h
  · simp only [vlength, thresholdOracle, if_neg h]
    norm_num
    exact le_of_not_lt h

/-- Witness for C6 on a one-particle engine with the particle one unit
from its target. -/
theorem C6_witness :
    randInRange thresholdOracle ∧ sqrtThresholdFaithful thresholdOracle ∧ (0 : ℚ) < 1 ∧
    List.Forall₂ (fun p q =>
      q.target = p.target ∧
      ((1 : ℚ) / 100 < normSq (p.target - p.current) →
        normSq (q.target - q.current) ≤ normSq (p.target - p.current)) ∧
      (normSq (p.target - p.current) ≤ 48 / 625 → normSq (q.target - q.current) ≤ 48 / 625) ∧
      (normSq (p.target - p.current) ≤ 1 / 100 → normSq (q.target - q.current) ≤ 48 / 625))
      morphWitnessState.particles
      (ParticleSystem.update thresholdOracle 1 morphWitnessState).particles :=
  ⟨thresholdOracle_randInRange, thresholdOracle_sqrtFaithful, by norm_num,
   C6_morph_convergence thresholdOracle 1 morphWitnessState thresholdOracle_randInRange
     thresholdOracle_sqrtFaithful (by norm_num) rfl rfl rfl rfl
     (by
       intro p hp
       simp only [morphWitnessState, List.mem_singleton] at hp
       subst hp
       norm_num)⟩

end Spec2Proof
